import Mathlib

/-!
Smart Logistics: decision engine

A shallow embedding of the impact analyser of
`backend/lambda/external-data-processor.js` and of the order / tracking store of
`backend/api-server/server.js`, with the properties proved about them.

Conventions of the embedding:

* JavaScript strings are `String`, compared with `===` as `==` on `String`;
* the numbers the code computes with are integers (minutes, degrees, epoch
  milliseconds) and are `Int`; the two places where the code divides
  (`length / 2`, `ms / (1000 * 60 * 60)`) compare the quotient with another
  number right away, and that comparison is `quotientGt` below;
* `null` / `undefined` are `none`;
* a JavaScript array that two objects share is a cell of an explicit heap, so
  that a mutation through one owner is seen by the other;
* a `throw` is `Except.error` carrying the error message.
-/

namespace SmartLogistics

/-! ## `Array.prototype.sort` -/

/-- Expression `Array.prototype.sort(cmp)`.  The sort of ECMAScript 2019 and later is stable; for a
comparator that is consistent on the array its result is the unique stable
ordering, computed here by stable insertion.  `cmp a b` is the number the
comparator returns (a `NaN` result counts as `+0`, see the comparators). -/
def jsSort {α : Type} (cmp : α → α → Int) (l : List α) : List α :=
  l.insertionSort (fun a b => cmp a b ≤ 0)

/-- Assignment to the first element of an array that satisfies `p`: what a
mutation of the object returned by `find` / indexed by `findIndex` does. -/
def modifyFirst {α : Type} (p : α → Bool) (f : α → α) : List α → List α
  | [] => []
  | x :: xs => if p x then f x :: xs else x :: modifyFirst p f xs

/-- The JavaScript comparison `a / b > c / d` for integers `a`, `c` and positive
integers `b`, `d`, decided by cross-multiplication.  It is used at
`highImpactConditions.length > weatherData.length / 2` (halving is exact in
binary floating point) and at `hoursElapsed > 0.1`, `hoursElapsed > 0.2` with
`hoursElapsed = ms / (1000 * 60 * 60)`: for an integer `ms` the rounded quotient
exceeds the double nearest to `0.1` exactly when `ms > 360000` (for `ms ≤ 360000`
the quotient is at most one tenth and rounding is monotone, for `ms ≥ 360001` it
is above it by more than `2e-7`), and likewise for `0.2` and `720000`. -/
def quotientGt (a b c d : Int) : Bool :=
  decide (a * d > c * b)

/-! ## Impact analyser: data -/

/-- One element of the weather batch built by `simulateWeatherAPI`. -/
structure WeatherReading where
  location : String
  condition : String
  temperature : Int
  precipitation_chance : Int
  wind_speed : Int
  visibility : Int
  impact_level : String
  recommendation : String
deriving DecidableEq, Repr

/-- The object returned by `analyzeWeatherImpact`. -/
structure WeatherVerdict where
  hasHighImpact : Bool
  affectedDeliveries : List String
  overallRisk : String
  recommendations : List String
  estimated_delay_hours : Nat
deriving DecidableEq, Repr

/-- One element of the traffic batch built by `simulateTrafficAPI`
(`best_departure_time`, a date string no function reads, is left out). -/
structure TrafficReading where
  waypoint : String
  congestion_level : String
  average_speed : Int
  incident_count : Int
  estimated_delay_minutes : Int
  alternative_routes_available : Bool
deriving DecidableEq, Repr

/-- One element of the `delays` list of the traffic verdict. -/
structure DelayEntry where
  location : String
  delay_minutes : Int
  severity : String
deriving DecidableEq, Repr

/-- The object returned by `analyzeTrafficImpact`; `optimizedRoute = none` is `null`. -/
structure TrafficVerdict where
  requiresOptimization : Bool
  totalDelayMinutes : Int
  delays : List DelayEntry
  optimizedRoute : Option (List String)
  recommendations : List String
deriving DecidableEq, Repr

/-! ## Impact analyser: functions -/

/-- Function `generateWeatherRecommendations`: a fixed list, whatever its argument. -/
def generateWeatherRecommendations (_highImpactConditions : List WeatherReading) : List String :=
  ["Reschedule non-urgent deliveries",
   "Use weather-appropriate packaging",
   "Notify customers of potential delays",
   "Deploy vehicles with appropriate equipment"]

/-- Function `generateTrafficRecommendations`: a fixed list, whatever its arguments. -/
def generateTrafficRecommendations (_trafficData : List TrafficReading)
    (_vehicleType : String) : List String :=
  ["Consider alternative routes",
   "Adjust departure times",
   "Group nearby deliveries",
   "Use real-time navigation updates"]

/-- The predicate of the `filter` in `analyzeWeatherImpact`. -/
def highImpactFilter (packageSensitivity : String) (w : WeatherReading) : Bool :=
  w.impact_level == "high" ||
  (w.condition == "rain" && packageSensitivity == "electronics") ||
  (w.condition == "snow" && decide (w.temperature < 32))

/-- Function `analyzeWeatherImpact(weatherData, packageSensitivity)`. -/
def analyzeWeatherImpact (weatherData : List WeatherReading)
    (packageSensitivity : String) : WeatherVerdict :=
  let highImpactConditions := weatherData.filter (highImpactFilter packageSensitivity)
  { hasHighImpact := decide (highImpactConditions.length > 0)
    affectedDeliveries := highImpactConditions.map (fun w => w.location)
    overallRisk :=
      if quotientGt highImpactConditions.length 1 weatherData.length 2 then "high"
      else "medium"
    recommendations := generateWeatherRecommendations highImpactConditions
    estimated_delay_hours := highImpactConditions.length * 2 }

/-- The table `congestionScore` of `generateOptimizedRoute`; a key that is not
in the table reads as `undefined`, here `none`. -/
def congestionScore (level : String) : Option Int :=
  if level = "low" then some 1
  else if level = "medium" then some 2
  else if level = "high" then some 3
  else none

/-- The comparator of `generateOptimizedRoute`: the difference of the two scores.
With an `undefined` score the difference is `NaN`, which `sort` reads as `+0`. -/
def congestionCompare (a b : TrafficReading) : Int :=
  match congestionScore a.congestion_level, congestionScore b.congestion_level with
  | some x, some y => x - y
  | _, _ => 0

/-- Function `generateOptimizedRoute(trafficData)`.  `sort` works in place, so the batch
itself is reordered: the result is the route together with the batch as the
call leaves it. -/
def generateOptimizedRoute (trafficData : List TrafficReading) :
    List String × List TrafficReading :=
  let sorted := jsSort congestionCompare trafficData
  (sorted.map (fun t => t.waypoint), sorted)

/-- Function `analyzeTrafficImpact(trafficData, departureTime, vehicleType)`: the verdict, and
the batch as the call leaves it (reordered by `generateOptimizedRoute` when that
runs).  The properties of the object literal are evaluated in source order, so
`delays` is read before the batch is sorted. -/
def analyzeTrafficImpact (trafficData : List TrafficReading) (_departureTime : String)
    (vehicleType : String) : TrafficVerdict × List TrafficReading :=
  let totalDelayMinutes := trafficData.foldl (fun sum t => sum + t.estimated_delay_minutes) 0
  let highCongestionPoints := trafficData.filter (fun t => t.congestion_level == "high")
  let delays := trafficData.map (fun t =>
    ({ location := t.waypoint, delay_minutes := t.estimated_delay_minutes,
       severity := t.congestion_level } : DelayEntry))
  let routed : Option (List String) × List TrafficReading :=
    if totalDelayMinutes > 30 then
      ((generateOptimizedRoute trafficData).1 |> some, (generateOptimizedRoute trafficData).2)
    else (none, trafficData)
  ({ requiresOptimization :=
       decide (totalDelayMinutes > 30) || decide (highCongestionPoints.length > 1)
     totalDelayMinutes := totalDelayMinutes
     delays := delays
     optimizedRoute := routed.1
     recommendations := generateTrafficRecommendations routed.2 vehicleType },
   routed.2)

/-! ## Impact analyser: the Lambda handler -/

/-- An item of the DynamoDB table `Orders`, with the attributes the processor
reads and writes; an absent attribute is `none`. -/
structure OrderItem where
  orderId : String
  delivery_address : Option String
  status : Option String
  updated_at : Option Int
  delay_reason : Option String
deriving DecidableEq, Repr

/-- What the surroundings supply to one invocation of the handler: the outcome
of the two simulated signal sources (an error is the message of the exception
they throw), which `scan` calls (by location) and which `update` calls (by
location and order id) the table rejects, and the clock. -/
structure Environment where
  weatherSignal : Except String (List WeatherReading)
  trafficSignal : Except String (List TrafficReading)
  scanFails : String → Bool
  updateFails : String → String → Bool
  now : Int

/-- The `event` of the handler: `function` and the fields of `parameters` that
reach the analyser. -/
structure Event where
  function : String
  package_sensitivity : String := ""
  departure_time : String := ""
  vehicle_type : String := ""

/-- The filter expression `contains(delivery_address, :location)`. -/
def containsLocation (item : OrderItem) (location : String) : Bool :=
  match item.delivery_address with
  | some address => address.data.tails.any (fun t => location.data.isPrefixOf t)
  | none => false

/-- Function `updateOrderStatus(orderId, status, reason)`: the `SET` on the item with the key. -/
def updateOrderStatus (now : Int) (items : List OrderItem) (orderId status reason : String) :
    List OrderItem :=
  modifyFirst (fun i => i.orderId == orderId)
    (fun i => { i with status := some status, updated_at := some now,
                       delay_reason := some reason })
    items

/-- The `for` loop over `result.Items` inside the `try` of `updateAffectedOrders`: an
`update` that is rejected throws, which leaves the loop for the `catch`. -/
def updateScanned (env : Environment) (location reasonCode : String) :
    List OrderItem → List OrderItem → List OrderItem
  | [], items => items
  | order :: rest, items =>
    if env.updateFails location order.orderId then items
    else updateScanned env location reasonCode rest
      (updateOrderStatus env.now items order.orderId "delayed" reasonCode)

/-- Function `updateAffectedOrders(affectedLocations, reasonCode)`.  The per-location tasks of
`Promise.all` are run here one after the other: a scan reads `delivery_address`
only, which no update writes, so the items each task finds do not depend on
the interleaving.  A rejected `scan` or `update` is caught and logged per
location; the function itself does not throw.  `result.Items` is taken to hold
every item that passes the filter (one page of results). -/
def updateAffectedOrders (env : Environment) (items : List OrderItem)
    (affectedLocations : List String) (reasonCode : String) : List OrderItem :=
  affectedLocations.foldl
    (fun items location =>
      if env.scanFails location then items
      else updateScanned env location reasonCode
        (items.filter (fun i => containsLocation i location)) items)
    items

/-- The body of the 200 response of `getWeatherImpact`. -/
structure WeatherBody where
  weather_conditions : List WeatherReading
  impact_analysis : WeatherVerdict
  recommended_actions : List String
  autonomous_actions_taken : List String
deriving DecidableEq, Repr

/-- The body of the 200 response of `getTrafficConditions`. -/
structure TrafficBody where
  traffic_conditions : List TrafficReading
  route_analysis : TrafficVerdict
  optimized_route : Option (List String)
  estimated_delays : List DelayEntry
  autonomous_actions_taken : List String
deriving DecidableEq, Repr

/-- The body of a response of the handler. -/
inductive ResponseBody where
  | weather (body : WeatherBody)
  | traffic (body : TrafficBody)
  | failure (error : String) (function : String)
deriving DecidableEq, Repr

/-- The object the handler returns. -/
structure Response where
  statusCode : Nat
  body : ResponseBody
deriving DecidableEq, Repr

/-- Function `getWeatherImpact(parameters)`: the response body or the message of the exception
thrown, and the table afterwards. -/
def getWeatherImpact (env : Environment) (items : List OrderItem) (event : Event) :
    Except String WeatherBody × List OrderItem :=
  match env.weatherSignal with
  | .error message => (.error message, items)
  | .ok weatherData =>
    let impactAnalysis := analyzeWeatherImpact weatherData event.package_sensitivity
    let items :=
      if impactAnalysis.hasHighImpact then
        updateAffectedOrders env items impactAnalysis.affectedDeliveries "weather_delay"
      else items
    (.ok
      { weather_conditions := weatherData
        impact_analysis := impactAnalysis
        recommended_actions := impactAnalysis.recommendations
        autonomous_actions_taken :=
          if impactAnalysis.hasHighImpact then ["order_status_updated", "customers_notified"]
          else ["monitoring_continued"] },
     items)

/-- The call `optimizeRouteForTraffic(route_waypoints, trafficData)`.  The module
declares, imports and assigns no binding of that name (its only occurrence is
this call), so evaluating the call throws the `ReferenceError` whose message
this is. -/
def optimizeRouteForTraffic (_trafficData : List TrafficReading) : Except String (List String) :=
  .error "optimizeRouteForTraffic is not defined"

/-- Function `updateRouteInDatabase(optimizedRoute)`: a log line. -/
def updateRouteInDatabase (_optimizedRoute : List String) : Except String Unit :=
  .ok ()

/-- Function `getTrafficConditions(parameters)`: the response body, or the message of the
exception its `catch` rethrows.  `trafficData` is the array the analyser has
worked on. -/
def getTrafficConditions (env : Environment) (event : Event) : Except String TrafficBody :=
  match env.trafficSignal with
  | .error message => .error message
  | .ok fetched =>
    let analysed := analyzeTrafficImpact fetched event.departure_time event.vehicle_type
    let routeAnalysis := analysed.1
    let trafficData := analysed.2
    let optimised : Except String Unit :=
      if routeAnalysis.requiresOptimization then
        match optimizeRouteForTraffic trafficData with
        | .error message => .error message
        | .ok optimizedRoute => updateRouteInDatabase optimizedRoute
      else .ok ()
    match optimised with
    | .error message => .error message
    | .ok _ =>
      .ok
        { traffic_conditions := trafficData
          route_analysis := routeAnalysis
          optimized_route :=
            if routeAnalysis.requiresOptimization then routeAnalysis.optimizedRoute else none
          estimated_delays := routeAnalysis.delays
          autonomous_actions_taken :=
            if routeAnalysis.requiresOptimization then ["route_optimized", "eta_updated"]
            else ["route_confirmed"] }

/-- Function `exports.handler(event)`: the `switch` on the function name inside the `try`, and
the `catch` that turns any exception into the 500 response. -/
def handler (env : Environment) (items : List OrderItem) (event : Event) :
    Response × List OrderItem :=
  let outcome : Except String ResponseBody × List OrderItem :=
    if event.function = "getWeatherImpact" then
      ((getWeatherImpact env items event).1.map ResponseBody.weather,
       (getWeatherImpact env items event).2)
    else if event.function = "getTrafficConditions" then
      ((getTrafficConditions env event).map ResponseBody.traffic, items)
    else (.error ("Unknown function: " ++ event.function), items)
  match outcome.1 with
  | .ok body => ({ statusCode := 200, body := body }, outcome.2)
  | .error message =>
    ({ statusCode := 500, body := .failure message event.function }, outcome.2)

/-! ## Order store: data -/

/-- One event of an order's timeline; `timestamp` is the epoch-millisecond value
of the ISO string the code stores. -/
structure TimelineEvent where
  status : String
  timestamp : Int
  location : String
deriving DecidableEq, Repr

/-- The `coordinates` object, in ten-thousandths of a degree. -/
structure Coordinates where
  lat : Int
  lng : Int
deriving DecidableEq, Repr

/-- The `currentLocation` object of a tracking record. -/
structure CurrentLocation where
  address : String
  coordinates : Coordinates
deriving DecidableEq, Repr

/-- The JSON body of `POST /api/orders`: the fields the order form sends and the
fields of the same name as those `create` sets itself; an absent key is `none`. -/
structure Payload where
  orderId : Option String := none
  trackingId : Option String := none
  customerName : Option String := none
  customerEmail : Option String := none
  customerPhone : Option String := none
  pickupAddress : Option String := none
  deliveryAddress : Option String := none
  packageType : Option String := none
  priority : Option String := none
  specialInstructions : Option String := none
  status : Option String := none
  createdAt : Option Int := none
  estimatedDelivery : Option Int := none
  updatedAt : Option Int := none
  timeline : Option (List TimelineEvent) := none
deriving DecidableEq, Repr

/-- An element of the array `orders`.  `timeline` is the address of the timeline
array in the heap; `status = none` is a status set to `undefined`. -/
structure Order where
  orderId : String
  trackingId : String
  customerName : Option String
  customerEmail : Option String
  customerPhone : Option String
  pickupAddress : Option String
  deliveryAddress : Option String
  packageType : Option String
  priority : Option String
  specialInstructions : Option String
  status : Option String
  createdAt : Int
  estimatedDelivery : Int
  updatedAt : Option Int
  timeline : Nat
deriving DecidableEq, Repr

/-- An element of the array `tracking`; `timeline` is a heap address. -/
structure TrackingRecord where
  trackingId : String
  orderId : String
  currentLocation : CurrentLocation
  status : String
  timeline : Nat
deriving DecidableEq, Repr

/-- The module state of `server.js`: the arrays `orders` and `tracking`, and the
heap of timeline arrays they point into. -/
structure Store where
  orders : List Order
  tracking : List TrackingRecord
  heap : List (List TimelineEvent)
deriving DecidableEq, Repr

/-- The state at start-up: `let orders = []; let tracking = [];`. -/
def Store.empty : Store :=
  { orders := [], tracking := [], heap := [] }

/-- The timeline array at a heap address. -/
def Store.timelineAt (s : Store) (ref : Nat) : List TimelineEvent :=
  s.heap.getD ref []

/-- The timeline of an order, read through its reference. -/
def Store.orderTimeline (s : Store) (o : Order) : List TimelineEvent :=
  s.timelineAt o.timeline

/-! ## Order store: operations -/

/-- Function `generateOrderId`: `'ORD-' + Date.now()`. -/
def generateOrderId (now : Int) : String :=
  "ORD-" ++ toString now

/-- Function `generateTrackingId`: `'TRK'` followed by the characters drawn from
`Math.random()`, which are the argument. -/
def generateTrackingId (random : String) : String :=
  "TRK" ++ random

/-- The `data` object of the 201 response of `POST /api/orders`. -/
structure CreateData where
  orderId : String
  trackingId : String
  customerName : Option String
  status : Option String
  estimatedDelivery : Int
  pickupAddress : Option String
  deliveryAddress : Option String
  packageType : Option String
  priority : Option String
  createdAt : Int
deriving DecidableEq, Repr

/-- Route `POST /api/orders` at clock reading `now` (one reading stands for the
consecutive `Date.now()` / `new Date()` calls of the handler), with `random` the
characters drawn for the tracking id.  The object literal spreads the payload
after `orderId` and `trackingId` and before the other fields. -/
def create (s : Store) (now : Int) (random : String) (orderData : Payload) :
    Store × CreateData :=
  let orderId := generateOrderId now
  let trackingId := generateTrackingId random
  let ref := s.heap.length
  let order : Order :=
    { orderId := orderData.orderId.getD orderId
      trackingId := orderData.trackingId.getD trackingId
      customerName := orderData.customerName
      customerEmail := orderData.customerEmail
      customerPhone := orderData.customerPhone
      pickupAddress := orderData.pickupAddress
      deliveryAddress := orderData.deliveryAddress
      packageType := orderData.packageType
      priority := orderData.priority
      specialInstructions := orderData.specialInstructions
      status := some "created"
      createdAt := now
      estimatedDelivery := now + 24 * 60 * 60 * 1000
      updatedAt := orderData.updatedAt
      timeline := ref }
  let record : TrackingRecord :=
    { trackingId := trackingId
      orderId := orderId
      currentLocation :=
        { address := "Processing Center", coordinates := { lat := 407128, lng := -740060 } }
      status := "created"
      timeline := order.timeline }
  ({ orders := s.orders ++ [order]
     tracking := s.tracking ++ [record]
     heap := s.heap ++ [[{ status := "Order Placed", timestamp := now,
                           location := "Online Platform" }]] },
   { orderId := order.orderId
     trackingId := order.trackingId
     customerName := order.customerName
     status := order.status
     estimatedDelivery := order.estimatedDelivery
     pickupAddress := order.pickupAddress
     deliveryAddress := order.deliveryAddress
     packageType := order.packageType
     priority := order.priority
     createdAt := order.createdAt })

/-- The comparator of the timeline sort in the tracking route:
`new Date(a.timestamp) - new Date(b.timestamp)`. -/
def timestampCompare (a b : TimelineEvent) : Int :=
  a.timestamp - b.timestamp

/-- Expression `timeline.push(event)` unless `timeline.find(t => t.status === status)` finds
an event. -/
def pushUnlessPresent (timeline : List TimelineEvent) (event : TimelineEvent) :
    List TimelineEvent :=
  if (timeline.find? (fun t => t.status == event.status)).isSome then timeline
  else timeline ++ [event]

/-- The block `if (order) { ... }` of the tracking route: the two threshold
tests on `hoursElapsed = (Date.now() - createdAt) / (1000 * 60 * 60)`, run one
after the other on the record and on its timeline array. -/
def simulateProgress (createdAt now : Int) (trackingInfo : TrackingRecord)
    (timeline : List TimelineEvent) : TrackingRecord × List TimelineEvent :=
  let ms := now - createdAt
  let first : TrackingRecord × List TimelineEvent :=
    if quotientGt ms (1000 * 60 * 60) 1 10 then
      ({ trackingInfo with
           status := "picked_up"
           currentLocation :=
             { address := "Pickup Location",
               coordinates := { lat := 407589, lng := -739851 } } },
       pushUnlessPresent timeline
         { status := "Picked Up", timestamp := createdAt + 6 * 60 * 1000,
           location := "Pickup Location" })
    else (trackingInfo, timeline)
  if quotientGt ms (1000 * 60 * 60) 2 10 then
    ({ first.1 with
         status := "in_transit"
         currentLocation :=
           { address := "Distribution Center - Manhattan",
             coordinates := { lat := 407282, lng := -737949 } } },
     pushUnlessPresent first.2
       { status := "In Transit", timestamp := createdAt + 12 * 60 * 1000,
         location := "Distribution Center - Manhattan" })
  else first

/-- The `data` object of the 200 response of `GET /api/tracking/:trackingId`. -/
structure TrackingData where
  trackingId : String
  orderId : String
  status : String
  currentLocation : CurrentLocation
  estimatedDelivery : Int
  timeline : List TimelineEvent
deriving DecidableEq, Repr

/-- The response of `GET /api/tracking/:trackingId`: 404, or 200 with the data. -/
inductive TrackingResponse where
  | notFound
  | ok (data : TrackingData)
deriving DecidableEq, Repr

/-- Route `GET /api/tracking/:trackingId` at clock reading `now`: the record is the first
one with the tracking id, the order the first one with the tracking id; the
record and its timeline array are updated in place, and the array is sorted in
place while the response is built. -/
def track (s : Store) (now : Int) (trackingId : String) : Store × TrackingResponse :=
  match s.tracking.find? (fun t => t.trackingId == trackingId) with
  | none => (s, .notFound)
  | some trackingInfo =>
    let order := s.orders.find? (fun o => o.trackingId == trackingId)
    let simulated : TrackingRecord × List TimelineEvent :=
      match order with
      | some o => simulateProgress o.createdAt now trackingInfo (s.timelineAt trackingInfo.timeline)
      | none => (trackingInfo, s.timelineAt trackingInfo.timeline)
    let sorted := jsSort timestampCompare simulated.2
    ({ orders := s.orders
       tracking := modifyFirst (fun t => t.trackingId == trackingId) (fun _ => simulated.1)
         s.tracking
       heap := s.heap.set trackingInfo.timeline sorted },
     .ok
       { trackingId := simulated.1.trackingId
         orderId := simulated.1.orderId
         status := simulated.1.status
         currentLocation := simulated.1.currentLocation
         estimatedDelivery :=
           match order with
           | some o => o.estimatedDelivery
           | none => now + 24 * 60 * 60 * 1000
         timeline := sorted })

/-- A word character of a regular expression, `\w`: `[A-Za-z0-9_]`. -/
def isWordChar (c : Char) : Bool :=
  c.isAlphanum || c == '_'

/-- Expression `str.replace('_', ' ')`: a string pattern replaces the first occurrence only. -/
def replaceFirstUnderscore : List Char → List Char
  | [] => []
  | c :: cs => if c == '_' then ' ' :: cs else c :: replaceFirstUnderscore cs

/-- Expression `str.replace(/\b\w/g, l => l.toUpperCase())`: every word character that follows
a non-word character, or starts the string, is upper-cased. -/
def capitalizeWords (afterWordChar : Bool) : List Char → List Char
  | [] => []
  | c :: cs =>
    (if isWordChar c && !afterWordChar then c.toUpper else c)
      :: capitalizeWords (isWordChar c) cs

/-- The status text of the event appended by the status route:
`status.replace('_', ' ').replace(/\b\w/g, l => l.toUpperCase())`. -/
def titleCase (status : String) : String :=
  String.mk (capitalizeWords false (replaceFirstUnderscore status.data))

/-- A JavaScript string used as a condition: `undefined` and `''` are falsy. -/
def truthy (location : Option String) : Bool :=
  match location with
  | some l => l != ""
  | none => false

/-- The response of `PATCH /api/orders/:orderId/status`: 404, 200 with the data, or
500 when the handler's `catch` runs. -/
inductive StatusResponse where
  | notFound
  | ok (orderId : String) (status : String) (location : Option String) (updatedAt : Int)
  | serverError
deriving DecidableEq, Repr

/-- Route `PATCH /api/orders/:orderId/status` at clock reading `now`, with the `status` and
`location` of the body (`none` when absent).  The order's `status` and
`updatedAt` are assigned first; `status.replace` then throws on an absent
status, which the `catch` turns into the 500 response. -/
def updateStatus (s : Store) (now : Int) (orderId : String) (status : Option String)
    (location : Option String) : Store × StatusResponse :=
  match s.orders.find? (fun o => o.orderId == orderId) with
  | none => (s, .notFound)
  | some order =>
    let orders := modifyFirst (fun o => o.orderId == orderId)
      (fun o => { o with status := status, updatedAt := some now }) s.orders
    match status with
    | none => ({ s with orders := orders }, .serverError)
    | some st =>
      let event : TimelineEvent :=
        { status := titleCase st
          timestamp := now
          location := if truthy location then location.getD "" else "System Update" }
      let heap := s.heap.set order.timeline (s.timelineAt order.timeline ++ [event])
      let tracking := modifyFirst (fun t => t.orderId == orderId)
        (fun t =>
          { t with
              status := st
              currentLocation :=
                if truthy location then
                  { t.currentLocation with address := location.getD "" }
                else t.currentLocation
              timeline := order.timeline })
        s.tracking
      ({ orders := orders, tracking := tracking, heap := heap },
       .ok orderId st location now)

/-- One request to the store, with the clock reading at which it is served. -/
inductive Op where
  | create (now : Int) (random : String) (orderData : Payload)
  | updateStatus (now : Int) (orderId : String) (status : Option String)
      (location : Option String)
  | track (now : Int) (trackingId : String)
deriving DecidableEq, Repr

/-- The clock reading of a request. -/
def Op.now : Op → Int
  | .create now _ _ => now
  | .updateStatus now _ _ _ => now
  | .track now _ => now

/-- The store after one request. -/
def step (s : Store) : Op → Store
  | .create now random orderData => (create s now random orderData).1
  | .updateStatus now orderId status location => (updateStatus s now orderId status location).1
  | .track now trackingId => (track s now trackingId).1

/-- The store after a sequence of requests, served in order. -/
def run (s : Store) (ops : List Op) : Store :=
  ops.foldl step s

/-! ## Order store: the read-only routes -/

/-- The response of `GET /api/orders/:orderId`: 404, or 200 with the order object, whose
`timeline` property is serialised with the events of the array it points to. -/
inductive OrderResponse where
  | notFound
  | ok (order : Order) (timeline : List TimelineEvent)
deriving DecidableEq, Repr

/-- Route `GET /api/orders/:orderId`: the first order with the id.  The route assigns
nothing; the store is returned as it was. -/
def getOrder (s : Store) (orderId : String) : Store × OrderResponse :=
  match s.orders.find? (fun o => o.orderId == orderId) with
  | none => (s, .notFound)
  | some order => (s, .ok order (s.orderTimeline order))

/-- Expression `Array.prototype.slice(start, end)` for integer arguments: a negative index
counts from the end of the array, and both ends are clamped to the array. -/
def jsSlice {α : Type} (l : List α) (start stop : Int) : List α :=
  let len : Int := l.length
  let k := if start < 0 then max (len + start) 0 else min start len
  let final := if stop < 0 then max (len + stop) 0 else min stop len
  (l.drop k.toNat).take (final - k).toNat

/-- Expression `Math.ceil(a / b)` for integers `a` and `b ≠ 0`. -/
def ceilDiv (a b : Int) : Int :=
  -(Int.fdiv (-a) b)

/-- An element of the `data` array of `GET /api/orders`. -/
structure OrderSummary where
  orderId : String
  customerName : Option String
  status : Option String
  createdAt : Int
  deliveryAddress : Option String
  priority : Option String
deriving DecidableEq, Repr

/-- The `pagination` object of `GET /api/orders`; `totalPages = none` is the `null`
that `Math.ceil(total / 0)` (`Infinity` or `NaN`) serialises to. -/
structure Pagination where
  page : Int
  limit : Int
  total : Nat
  totalPages : Option Int
deriving DecidableEq, Repr

/-- The 200 response of `GET /api/orders`. -/
structure ListResponse where
  data : List OrderSummary
  pagination : Pagination
deriving DecidableEq, Repr

/-- The orders `GET /api/orders` selects: all of them when `status` is absent or
empty, those with that status otherwise. -/
def filterOrders (s : Store) (status : Option String) : List Order :=
  if truthy status then s.orders.filter (fun o => o.status == status) else s.orders

/-- The projection of an order in the `map` of `GET /api/orders`. -/
def summary (order : Order) : OrderSummary :=
  { orderId := order.orderId
    customerName := order.customerName
    status := order.status
    createdAt := order.createdAt
    deliveryAddress := order.deliveryAddress
    priority := order.priority }

/-- Route `GET /api/orders` with the query parameters `status`, `limit` and `page`, the last
two integer-valued (`none` when absent: the defaults are 10 and 1).  The route
assigns nothing. -/
def listOrders (s : Store) (status : Option String) (limit page : Option Int) : ListResponse :=
  let limit := limit.getD 10
  let page := page.getD 1
  let filteredOrders := filterOrders s status
  let startIndex := (page - 1) * limit
  let endIndex := startIndex + limit
  let paginatedOrders := jsSlice filteredOrders startIndex endIndex
  { data := paginatedOrders.map summary
    pagination :=
      { page := page
        limit := limit
        total := filteredOrders.length
        totalPages := if limit = 0 then none else some (ceilDiv filteredOrders.length limit) } }

/-! ## Impact analyser: the requests the dispatcher sends -/

/-- A request of the processor to a collaborator: a `scan` or an `update` of the
table `Orders`, or the notification request of the specification's dispatcher
(an order and a notification type). -/
inductive Request where
  | scan (location : String)
  | update (orderId status reason : String)
  | notify (orderId notificationType : String)
deriving DecidableEq, Repr

/-- The `update` requests of the `for` loop over `result.Items`: one per order, up to
and including the first one the table rejects. -/
def updateScannedRequests (env : Environment) (location reasonCode : String) :
    List OrderItem → List Request
  | [] => []
  | order :: rest =>
    .update order.orderId "delayed" reasonCode ::
      (if env.updateFails location order.orderId then []
       else updateScannedRequests env location reasonCode rest)

/-- The requests `updateAffectedOrders` sends, listed location by location (the
tasks of `Promise.all` interleave; no order across locations is meant): the
`scan` and, when it succeeds, the updates of the loop.  No statement of
`updateAffectedOrders` or `updateOrderStatus` sends anything else. -/
def updateAffectedOrdersRequests (env : Environment) (items : List OrderItem)
    (affectedLocations : List String) (reasonCode : String) : List Request :=
  (affectedLocations.foldl
    (fun (state : List OrderItem × List Request) location =>
      if env.scanFails location then (state.1, state.2 ++ [.scan location])
      else
        (updateScanned env location reasonCode
           (state.1.filter (fun i => containsLocation i location)) state.1,
         state.2 ++ .scan location ::
           updateScannedRequests env location reasonCode
             (state.1.filter (fun i => containsLocation i location))))
    (items, [])).2

/-- The requests `getWeatherImpact` sends: those of `updateAffectedOrders` when the
verdict has `hasHighImpact`, none otherwise. -/
def getWeatherImpactRequests (env : Environment) (items : List OrderItem) (event : Event) :
    List Request :=
  match env.weatherSignal with
  | .error _ => []
  | .ok weatherData =>
    let impactAnalysis := analyzeWeatherImpact weatherData event.package_sensitivity
    if impactAnalysis.hasHighImpact then
      updateAffectedOrdersRequests env items impactAnalysis.affectedDeliveries "weather_delay"
    else []

/-! ## The notification handler (`backend/lambda/notify.js`) -/

/-- An item of the table `Customers` as the handler reads it. -/
structure Customer where
  customerId : String
  phoneNumber : Option String
  email : Option String
deriving DecidableEq, Repr

/-- The `messageData` object of an event; an absent property is `none`. -/
structure MessageData where
  estimatedDelivery : Option String := none
  trackingUrl : Option String := none
  currentLocation : Option String := none
  reason : Option String := none
  newEstimatedDelivery : Option String := none
  message : Option String := none
deriving DecidableEq, Repr

/-- The `event` of the notification handler; an absent property is `none`. -/
structure NotifyEvent where
  orderId : Option String
  customerId : Option String
  notificationType : Option String
  messageData : Option MessageData
deriving DecidableEq, Repr

/-- An item put into the table `NotificationsLog`. -/
structure LogEntry where
  notificationId : String
  orderId : Option String
  customerId : Option String
  notificationType : Option String
  status : String
  timestamp : Int
  errorMessage : Option String
deriving DecidableEq, Repr

/-- What the surroundings supply to one invocation of the notification handler:
the outcome of the customer lookup (`none` is a result without `Item`), of an
SMS publish, of an email publish and of a log put (an error is the message of
the rejection), and the clock. -/
structure NotifyEnvironment where
  customerLookup : Except String (Option Customer)
  smsPublish : Except String Unit
  emailPublish : Except String Unit
  logPut : Except String Unit
  now : Int

/-- A call of the notification handler to a collaborator. -/
inductive NotifyCall where
  | getCustomer (customerId : Option String)
  | publishSms (phoneNumber message : String)
  | publishEmail (recipientEmail subject body : String)
  | putLog (entry : LogEntry)
deriving DecidableEq, Repr

/-- A value inside a template literal: `undefined` prints as `undefined`. -/
def interpolate (value : Option String) : String :=
  value.getD "undefined"

/-- Function `generateNotificationMessage(notificationType, messageData, orderId)` for a
`messageData` object: the entry of the table `messages` for the type, or the
generic message for a type that is not a key of the table. -/
def generateNotificationMessage (notificationType : Option String) (messageData : MessageData)
    (orderId : Option String) : String :=
  let order := interpolate orderId
  if notificationType = some "order_created" then
    "Your order " ++ order ++ " has been created and is being processed. Estimated delivery: "
      ++ interpolate messageData.estimatedDelivery
  else if notificationType = some "order_picked_up" then
    "Your order " ++ order ++ " has been picked up and is on its way. Track your package: "
      ++ interpolate messageData.trackingUrl
  else if notificationType = some "in_transit" then
    "Your order " ++ order ++ " is in transit. Current location: "
      ++ interpolate messageData.currentLocation ++ ". Expected delivery: "
      ++ interpolate messageData.estimatedDelivery
  else if notificationType = some "out_for_delivery" then
    "Your order " ++ order ++ " is out for delivery. It will arrive within the next 2 hours."
  else if notificationType = some "delivered" then
    "Your order " ++ order
      ++ " has been successfully delivered. Thank you for choosing our service!"
  else if notificationType = some "delivery_delayed" then
    "Your order " ++ order ++ " delivery has been delayed due to "
      ++ interpolate messageData.reason ++ ". New estimated delivery: "
      ++ interpolate messageData.newEstimatedDelivery
  else if notificationType = some "delivery_failed" then
    "We were unable to deliver your order " ++ order ++ ". Reason: "
      ++ interpolate messageData.reason ++ ". We will attempt redelivery tomorrow."
  else
    "Update for order " ++ order ++ ": "
      ++ (if truthy messageData.message then interpolate messageData.message
          else "Status updated")

/-- Function `getEmailSubject(notificationType)`. -/
def getEmailSubject (notificationType : Option String) : String :=
  if notificationType = some "order_created" then "Order Confirmation - Smart Logistics"
  else if notificationType = some "order_picked_up" then "Order Picked Up - Smart Logistics"
  else if notificationType = some "in_transit" then "Order In Transit - Smart Logistics"
  else if notificationType = some "out_for_delivery" then
    "Order Out for Delivery - Smart Logistics"
  else if notificationType = some "delivered" then "Order Delivered - Smart Logistics"
  else if notificationType = some "delivery_delayed" then "Delivery Delayed - Smart Logistics"
  else if notificationType = some "delivery_failed" then "Delivery Failed - Smart Logistics"
  else "Order Update - Smart Logistics"

/-- The body of a response of the notification handler. -/
structure NotifyBody where
  message : String
  orderId : Option String := none
  notificationType : Option String := none
  error : Option String := none
deriving DecidableEq, Repr

/-- What one invocation of the notification handler leaves: the response, the calls
made to the collaborators in order, and the table `NotificationsLog`. -/
structure NotifyResult where
  statusCode : Nat
  body : NotifyBody
  calls : List NotifyCall
  log : List LogEntry
deriving DecidableEq, Repr

/-- The item `logNotification(orderId, customerId, notificationType, status, errorMessage)`
puts. -/
def logEntry (now : Int) (event : NotifyEvent) (status : String)
    (errorMessage : Option String) : LogEntry :=
  { notificationId := interpolate event.orderId ++ "-" ++ toString now
    orderId := event.orderId
    customerId := event.customerId
    notificationType := event.notificationType
    status := status
    timestamp := now
    errorMessage := errorMessage }

/-- Function `logNotification`: the put is made once; a rejected put is caught and logged to the
console, and nothing is stored. -/
def logNotification (env : NotifyEnvironment) (log : List LogEntry) (entry : LogEntry) :
    List NotifyCall × List LogEntry :=
  match env.logPut with
  | .ok _ => ([.putLog entry], log ++ [entry])
  | .error _ => ([.putLog entry], log)

/-- The statements of the `try` block of the handler up to the last send: the
exception thrown, if any, and the calls made.  The lookup comes first; the
message is generated next (the template literals read the properties of
`messageData`, which throws on `undefined`); the SMS publish is awaited before
the email publish is started. -/
def sendNotifications (env : NotifyEnvironment) (event : NotifyEvent) :
    Except String Unit × List NotifyCall :=
  match env.customerLookup with
  | .error message => (.error message, [.getCustomer event.customerId])
  | .ok none =>
    (.error ("Customer not found: " ++ interpolate event.customerId),
     [.getCustomer event.customerId])
  | .ok (some customer) =>
    match event.messageData with
    | none =>
      (.error "Cannot read properties of undefined (reading 'estimatedDelivery')",
       [.getCustomer event.customerId])
    | some messageData =>
      let message :=
        generateNotificationMessage event.notificationType messageData event.orderId
      let sms : Except String Unit × List NotifyCall :=
        if truthy customer.phoneNumber then
          (env.smsPublish, [.publishSms (customer.phoneNumber.getD "") message])
        else (.ok (), [])
      match sms.1 with
      | .error error => (.error error, .getCustomer event.customerId :: sms.2)
      | .ok _ =>
        let email : Except String Unit × List NotifyCall :=
          if truthy customer.email then
            (env.emailPublish,
             [.publishEmail (customer.email.getD "") (getEmailSubject event.notificationType)
               message])
          else (.ok (), [])
        (email.1, .getCustomer event.customerId :: (sms.2 ++ email.2))

/-- The handler `exports.handler(event)` of `notify.js`: after the sends the notification is logged
as `sent` and the 200 response returned; an exception is logged as `failed`, when
the event has an `orderId` and a `customerId`, and turned into the 500 response. -/
def notifyHandler (env : NotifyEnvironment) (log : List LogEntry) (event : NotifyEvent) :
    NotifyResult :=
  match sendNotifications env event with
  | (.ok _, calls) =>
    let logged := logNotification env log (logEntry env.now event "sent" none)
    { statusCode := 200
      body := { message := "Notification sent successfully", orderId := event.orderId,
                notificationType := event.notificationType }
      calls := calls ++ logged.1
      log := logged.2 }
  | (.error error, calls) =>
    let logged : List NotifyCall × List LogEntry :=
      if truthy event.orderId && truthy event.customerId then
        logNotification env log (logEntry env.now event "failed" (some error))
      else ([], log)
    { statusCode := 500
      body := { message := "Failed to send notification", error := some error }
      calls := calls ++ logged.1
      log := logged.2 }

/-! ## Order store: analytics -/

/-- The counts in the `data` object of `GET /api/analytics` (the other fields are
constants). -/
structure Analytics where
  totalOrders : Nat
  deliveredOrders : Nat
  inTransitOrders : Nat
  pendingOrders : Nat
deriving DecidableEq, Repr

/-- Route `GET /api/analytics`; the route assigns nothing. -/
def analytics (s : Store) : Analytics :=
  { totalOrders := s.orders.length
    deliveredOrders := (s.orders.filter (fun o => o.status == some "delivered")).length
    inTransitOrders := (s.orders.filter (fun o => o.status == some "in_transit")).length
    pendingOrders := (s.orders.filter (fun o => o.status == some "created")).length }

/-! ## Specification-side definitions -/

/-- The specification's "high impact" reading: its impact level is `high`, or it is
rain on an `electronics` package, or it is snow below freezing (32 degrees). -/
def HighImpact (sensitivity : String) (w : WeatherReading) : Prop :=
  w.impact_level = "high" ∨
  (w.condition = "rain" ∧ sensitivity = "electronics") ∨
  (w.condition = "snow" ∧ w.temperature < 32)

instance instDecidableHighImpact (sensitivity : String) (w : WeatherReading) :
    Decidable (HighImpact sensitivity w) := by
  unfold HighImpact
  infer_instance

/-- The specification's severity order `low < medium < high`, as a rank. -/
def severityRank (level : String) : Nat :=
  if level = "low" then 1
  else if level = "medium" then 2
  else if level = "high" then 3
  else 0

/-- A congestion level of the specification's classification. -/
def KnownLevel (level : String) : Prop :=
  level = "low" ∨ level = "medium" ∨ level = "high"

instance instDecidableKnownLevel (level : String) : Decidable (KnownLevel level) := by
  unfold KnownLevel
  infer_instance

/-- The sum of the estimated delays of a traffic batch. -/
def totalDelay (trafficData : List TrafficReading) : Int :=
  (trafficData.map (fun t => t.estimated_delay_minutes)).sum

/-- The readings of a traffic batch classified `high`. -/
def highCongestionCount (trafficData : List TrafficReading) : Nat :=
  (trafficData.filter (fun t => t.congestion_level == "high")).length

/-- A batch of four readings, one of them classified `high`. -/
def sampleWeather : List WeatherReading :=
  [ { location := "Albany", condition := "clear", temperature := 45, precipitation_chance := 10,
      wind_speed := 5, visibility := 9, impact_level := "low",
      recommendation := "Optimal delivery conditions" },
    { location := "Boston", condition := "rain", temperature := 41, precipitation_chance := 80,
      wind_speed := 12, visibility := 4, impact_level := "high",
      recommendation := "Use waterproof packaging, allow extra time" },
    { location := "Camden", condition := "snow", temperature := 35, precipitation_chance := 60,
      wind_speed := 8, visibility := 3, impact_level := "medium",
      recommendation := "Consider delays, use appropriate vehicles" },
    { location := "Dover", condition := "storm", temperature := 50, precipitation_chance := 90,
      wind_speed := 19, visibility := 2, impact_level := "medium",
      recommendation := "Delay non-urgent deliveries" } ]

/-- Three waypoints with delays of 10, 25 and 40 minutes. -/
def sampleTraffic : List TrafficReading :=
  [ { waypoint := "Depot", congestion_level := "high", average_speed := 20, incident_count := 1,
      estimated_delay_minutes := 10, alternative_routes_available := true },
    { waypoint := "Harbor", congestion_level := "low", average_speed := 50, incident_count := 0,
      estimated_delay_minutes := 25, alternative_routes_available := false },
    { waypoint := "Market", congestion_level := "medium", average_speed := 30, incident_count := 2,
      estimated_delay_minutes := 40, alternative_routes_available := true } ]

/-- Two waypoints, both classified `high`, with delays of 12 and 9 minutes. -/
def congestedTraffic : List TrafficReading :=
  [ { waypoint := "Depot", congestion_level := "high", average_speed := 18, incident_count := 2,
      estimated_delay_minutes := 12, alternative_routes_available := false },
    { waypoint := "Harbor", congestion_level := "high", average_speed := 22, incident_count := 1,
      estimated_delay_minutes := 9, alternative_routes_available := true } ]

/-- The order of the specification on readings: by severity rank. -/
def SeverityLe (a b : TrafficReading) : Prop :=
  severityRank a.congestion_level ≤ severityRank b.congestion_level

instance instDecidableSeverityLe : DecidableRel SeverityLe :=
  fun a _ => inferInstanceAs (Decidable (severityRank a.congestion_level ≤ _))

instance instIsTotalSeverityLe : IsTotal TrafficReading SeverityLe :=
  ⟨fun _ _ => Nat.le_total _ _⟩

instance instIsTransSeverityLe : IsTrans TrafficReading SeverityLe :=
  ⟨fun _ _ _ hab hbc => Nat.le_trans hab hbc⟩

/-- An invocation environment whose traffic source returns `sampleTraffic`. -/
def sampleEnvironment : Environment :=
  { weatherSignal := .ok sampleWeather
    trafficSignal := .ok sampleTraffic
    scanFails := fun _ => false
    updateFails := fun _ _ => false
    now := 0 }

/-- An invocation environment whose traffic source returns `congestedTraffic`. -/
def congestedEnvironment : Environment :=
  { sampleEnvironment with trafficSignal := .ok congestedTraffic }

/-- An invocation environment whose traffic source returns one quiet waypoint. -/
def quietEnvironment : Environment :=
  { sampleEnvironment with
      trafficSignal := .ok
        [ { waypoint := "Depot", congestion_level := "low", average_speed := 50,
            incident_count := 0, estimated_delay_minutes := 4,
            alternative_routes_available := true } ] }

/-- The event of a `getTrafficConditions` request. -/
def trafficEvent : Event :=
  { function := "getTrafficConditions", departure_time := "09:00", vehicle_type := "van" }

/-- The order of a timeline: by timestamp. -/
def TimestampLe (a b : TimelineEvent) : Prop :=
  a.timestamp ≤ b.timestamp

instance instDecidableTimestampLe : DecidableRel TimestampLe :=
  fun a _ => inferInstanceAs (Decidable (a.timestamp ≤ _))

instance instIsTotalTimestampLe : IsTotal TimelineEvent TimestampLe :=
  ⟨fun _ _ => Int.le_total _ _⟩

instance instIsTransTimestampLe : IsTrans TimelineEvent TimestampLe :=
  ⟨fun _ _ _ hab hbc => Int.le_trans hab hbc⟩

/-- The first threshold of the simulator, six minutes in milliseconds. -/
def T1 : Int := 6 * 60 * 1000

/-- The second threshold of the simulator, twelve minutes in milliseconds. -/
def T2 : Int := 12 * 60 * 1000

/-- The status the simulator leaves in a tracking record, given the stored status
and the time elapsed since the creation of the order found for the tracking id
(`none` when no order is found). -/
def simulatedStatus (stored : String) (elapsed : Option Int) : String :=
  match elapsed with
  | none => stored
  | some e => if e > T2 then "in_transit" else if e > T1 then "picked_up" else stored

/-- The status a response of the tracking route reports (`none` for a 404). -/
def TrackingResponse.status : TrackingResponse → Option String
  | .notFound => none
  | .ok data => some data.status

/-- The timeline a response of the tracking route carries (`none` for a 404). -/
def TrackingResponse.timeline : TrackingResponse → Option (List TimelineEvent)
  | .notFound => none
  | .ok data => some data.timeline

/-- The location a response of the tracking route reports (`none` for a 404). -/
def TrackingResponse.address : TrackingResponse → Option String
  | .notFound => none
  | .ok data => some data.currentLocation.address

/-- The status stored in the first tracking record with a tracking id. -/
def Store.trackingStatus (s : Store) (trackingId : String) : Option String :=
  (s.tracking.find? (fun t => t.trackingId == trackingId)).map (fun t => t.status)

/-- The `Order Placed` event of an order created at `createdAt`. -/
def placedEvent (createdAt : Int) : TimelineEvent :=
  { status := "Order Placed", timestamp := createdAt, location := "Online Platform" }

/-- The `Picked Up` event the simulator appends for an order created at `createdAt`. -/
def pickedUpEvent (createdAt : Int) : TimelineEvent :=
  { status := "Picked Up", timestamp := createdAt + 6 * 60 * 1000, location := "Pickup Location" }

/-- The `In Transit` event the simulator appends for an order created at `createdAt`. -/
def inTransitEvent (createdAt : Int) : TimelineEvent :=
  { status := "In Transit", timestamp := createdAt + 12 * 60 * 1000,
    location := "Distribution Center - Manhattan" }

/-- The store after an order is created at time 0 and set to `delivered` by the
status route one second later. -/
def deliveredStore : Store :=
  (updateStatus (create Store.empty 0 "AB12" {}).1 1000 "ORD-0" (some "delivered") none).1

/-- The simulation step of the tracking route, by the order found for the tracking
id: `simulateProgress` when there is one, nothing otherwise. -/
def progress (order : Option Order) (now : Int) (trackingInfo : TrackingRecord)
    (timeline : List TimelineEvent) : TrackingRecord × List TimelineEvent :=
  match order with
  | some o => simulateProgress o.createdAt now trackingInfo timeline
  | none => (trackingInfo, timeline)

/-- The result of the tracking route once its record has been found. -/
def trackFound (s : Store) (now : Int) (trackingId : String) (trackingInfo : TrackingRecord) :
    Store × TrackingResponse :=
  ({ orders := s.orders
     tracking := modifyFirst (fun t => t.trackingId == trackingId)
       (fun _ => (progress (s.orders.find? (fun o => o.trackingId == trackingId)) now
         trackingInfo (s.timelineAt trackingInfo.timeline)).1) s.tracking
     heap := s.heap.set trackingInfo.timeline
       (jsSort timestampCompare
         (progress (s.orders.find? (fun o => o.trackingId == trackingId)) now
           trackingInfo (s.timelineAt trackingInfo.timeline)).2) },
   .ok
     { trackingId := (progress (s.orders.find? (fun o => o.trackingId == trackingId)) now
         trackingInfo (s.timelineAt trackingInfo.timeline)).1.trackingId
       orderId := (progress (s.orders.find? (fun o => o.trackingId == trackingId)) now
         trackingInfo (s.timelineAt trackingInfo.timeline)).1.orderId
       status := (progress (s.orders.find? (fun o => o.trackingId == trackingId)) now
         trackingInfo (s.timelineAt trackingInfo.timeline)).1.status
       currentLocation := (progress (s.orders.find? (fun o => o.trackingId == trackingId)) now
         trackingInfo (s.timelineAt trackingInfo.timeline)).1.currentLocation
       estimatedDelivery :=
         match s.orders.find? (fun o => o.trackingId == trackingId) with
         | some o => o.estimatedDelivery
         | none => now + 24 * 60 * 60 * 1000
       timeline := jsSort timestampCompare
         (progress (s.orders.find? (fun o => o.trackingId == trackingId)) now
           trackingInfo (s.timelineAt trackingInfo.timeline)).2 })

/-- Every timeline array of the heap is sorted by timestamp and holds no event
later than the clock reading `clock`. -/
def HeapSorted (clock : Int) (s : Store) : Prop :=
  ∀ timeline ∈ s.heap, timeline.Sorted TimestampLe ∧ ∀ e ∈ timeline, e.timestamp ≤ clock

/-- A sequence of requests: an order is created, set to `delivered` ten minutes
later, and tracked after thirteen minutes and twenty seconds. -/
def sampleOps : List Op :=
  [ .create 0 "AB12" {},
    .updateStatus 600000 "ORD-0" (some "delivered") none,
    .track 800000 "TRKAB12" ]

/-- The store after one order is created at time 0 from an empty payload. -/
def oneOrder : Store :=
  (create Store.empty 0 "AB12" {}).1

/-- The store after five orders are created at times 1 to 5. -/
def fiveOrders : Store :=
  run Store.empty
    [ .create 1 "AA11" {}, .create 2 "BB22" {}, .create 3 "CC33" {}, .create 4 "DD44" {},
      .create 5 "EE55" {} ]

/-- The specification's filter of the list operation: without a status every
order matches, with one the orders of that status do. -/
def matchesFilter (status : Option String) (o : Order) : Bool :=
  !truthy status || o.status == status

/-- An item after the update of `updateOrderStatus(orderId, 'delayed', reason)`. -/
def delayedItem (now : Int) (reason : String) (item : OrderItem) : OrderItem :=
  { item with status := some "delayed", updated_at := some now, delay_reason := some reason }

/-- The ids of the orders a location reaches: those of the items whose delivery
address contains the location, in table order, before the first one whose
update the table rejects. -/
def reachedIds (env : Environment) (items : List OrderItem) (location : String) :
    List String :=
  ((items.filter (fun i => containsLocation i location)).map (fun i => i.orderId)).takeWhile
    (fun id => !env.updateFails location id)

/-- A table of three orders: two delivered to Boston, one to Dover. -/
def sampleItems : List OrderItem :=
  [ { orderId := "o1", delivery_address := some "12 Main St, Boston", status := some "created",
      updated_at := none, delay_reason := none },
    { orderId := "o2", delivery_address := some "7 Elm St, Boston", status := some "created",
      updated_at := none, delay_reason := none },
    { orderId := "o3", delivery_address := some "3 Oak St, Dover", status := some "created",
      updated_at := none, delay_reason := none } ]

/-- An invocation environment whose table rejects the update of order `o1`. -/
def failingEnvironment : Environment :=
  { sampleEnvironment with updateFails := fun _ orderId => orderId == "o1", now := 9000 }

/-- The event of a `getWeatherImpact` request. -/
def weatherEvent : Event :=
  { function := "getWeatherImpact", package_sensitivity := "clothing" }

/-- The send attempts among the calls of the notification handler: the SMS and
email publishes, in order. -/
def sendAttempts (calls : List NotifyCall) : List NotifyCall :=
  calls.filter (fun c =>
    match c with
    | .publishSms _ _ => true
    | .publishEmail _ _ _ => true
    | _ => false)

/-- The SMS publishes among the calls of the notification handler. -/
def smsAttempts (calls : List NotifyCall) : List NotifyCall :=
  calls.filter (fun c =>
    match c with
    | .publishSms _ _ => true
    | _ => false)

/-- The log entries the notification handler has put, in order. -/
def logWrites (calls : List NotifyCall) : List LogEntry :=
  calls.filterMap (fun c =>
    match c with
    | .putLog entry => some entry
    | _ => none)

/-- A customer with a phone number and an email address. -/
def bothChannels : Customer :=
  { customerId := "c1", phoneNumber := some "+15550100", email := some "ada@example.com" }

/-- A customer with an email address only. -/
def emailOnly : Customer :=
  { customerId := "c1", phoneNumber := none, email := some "ada@example.com" }

/-- A customer with no contact channel. -/
def noChannel : Customer :=
  { customerId := "c1", phoneNumber := none, email := none }

/-- A `delivery_delayed` notification request for order `ORD-1` and customer `c1`. -/
def delayedEvent : NotifyEvent :=
  { orderId := some "ORD-1", customerId := some "c1",
    notificationType := some "delivery_delayed",
    messageData := some { reason := some "weather", newEstimatedDelivery := some "tomorrow" } }

/-- An invocation environment of the notification handler in which every call
succeeds, for a given outcome of the customer lookup. -/
def workingNotify (customer : Option Customer) : NotifyEnvironment :=
  { customerLookup := .ok customer, smsPublish := .ok (), emailPublish := .ok (),
    logPut := .ok (), now := 7000 }

/-- An invocation environment in which the SMS publish is rejected. -/
def smsDown (customer : Option Customer) : NotifyEnvironment :=
  { workingNotify customer with smsPublish := .error "SMS rejected" }

/-- An invocation environment in which the email publish is rejected. -/
def emailDown (customer : Option Customer) : NotifyEnvironment :=
  { workingNotify customer with emailPublish := .error "email rejected" }

/-! ## Weather verdict -/

theorem highImpactFilter_eq_decide (sensitivity : String) (w : WeatherReading) :
    highImpactFilter sensitivity w = decide (HighImpact sensitivity w) := by
  rw [Bool.eq_iff_iff]
  simp [highImpactFilter, HighImpact, or_assoc]

theorem highImpactFilter_eq_fun (sensitivity : String) :
    highImpactFilter sensitivity = fun w => decide (HighImpact sensitivity w) :=
  funext (highImpactFilter_eq_decide sensitivity)

/-- C1: the affected deliveries are the locations, in batch order, of exactly the
high-impact readings of the specification, and `hasHighImpact` holds exactly
when that list is not empty. -/
theorem analyzeWeatherImpact_affected (weatherData : List WeatherReading)
    (sensitivity : String) :
    (analyzeWeatherImpact weatherData sensitivity).affectedDeliveries =
        (weatherData.filter (fun w => decide (HighImpact sensitivity w))).map
          (fun w => w.location) ∧
    ((analyzeWeatherImpact weatherData sensitivity).hasHighImpact = true ↔
      (analyzeWeatherImpact weatherData sensitivity).affectedDeliveries ≠ []) := by
  constructor
  · simp only [analyzeWeatherImpact, highImpactFilter_eq_fun]
  · simp only [analyzeWeatherImpact, decide_eq_true_eq, ne_eq, List.map_eq_nil_iff]
    exact List.length_pos

theorem quotientGt_half (n m : Nat) :
    quotientGt n 1 m 2 = true ↔ ((n : ℚ) > (m : ℚ) / 2) := by
  simp only [quotientGt, decide_eq_true_eq, mul_one, gt_iff_lt]
  rw [div_lt_iff₀ (by norm_num : (0 : ℚ) < 2)]
  exact_mod_cast Iff.rfl

/-- C2: the overall risk is `high` exactly when the number of high-impact readings
is strictly greater than half the batch length, and `medium` otherwise; a batch
of four readings with exactly one high-impact reading has `hasHighImpact` and
risk `medium`. -/
theorem analyzeWeatherImpact_overallRisk (weatherData : List WeatherReading)
    (sensitivity : String) :
    ((analyzeWeatherImpact weatherData sensitivity).overallRisk = "high" ↔
      (((weatherData.filter (fun w => decide (HighImpact sensitivity w))).length : ℚ) >
        (weatherData.length : ℚ) / 2)) ∧
    (¬ (((weatherData.filter (fun w => decide (HighImpact sensitivity w))).length : ℚ) >
        (weatherData.length : ℚ) / 2) →
      (analyzeWeatherImpact weatherData sensitivity).overallRisk = "medium") ∧
    (weatherData.length = 4 →
      (weatherData.filter (fun w => decide (HighImpact sensitivity w))).length = 1 →
      (analyzeWeatherImpact weatherData sensitivity).hasHighImpact = true ∧
      (analyzeWeatherImpact weatherData sensitivity).overallRisk = "medium") := by
  have key := quotientGt_half
    (weatherData.filter (fun w => decide (HighImpact sensitivity w))).length weatherData.length
  simp only [analyzeWeatherImpact, highImpactFilter_eq_fun]
  refine ⟨?_, ?_, ?_⟩
  · rw [← key]
    split <;> simp_all
  · intro h
    rw [← key] at h
    simp [h]
  · intro h4 h1
    have hq : quotientGt 1 1 4 2 = false := by decide
    simp [h1, h4, hq]

theorem analyzeWeatherImpact_overallRisk_witness :
    (analyzeWeatherImpact sampleWeather "clothing").hasHighImpact = true ∧
    (analyzeWeatherImpact sampleWeather "clothing").overallRisk = "medium" :=
  (analyzeWeatherImpact_overallRisk sampleWeather "clothing").2.2 (by decide) (by decide)

/-! ## Traffic verdict -/

theorem foldl_delay_eq (trafficData : List TrafficReading) (acc : Int) :
    trafficData.foldl (fun sum t => sum + t.estimated_delay_minutes) acc =
      acc + totalDelay trafficData := by
  induction trafficData generalizing acc with
  | nil => simp [totalDelay]
  | cons t ts ih =>
    simp only [List.foldl_cons, ih, totalDelay, List.map_cons, List.sum_cons]
    ring

theorem analyzeTrafficImpact_total (trafficData : List TrafficReading)
    (departureTime vehicleType : String) :
    (analyzeTrafficImpact trafficData departureTime vehicleType).1.totalDelayMinutes =
      totalDelay trafficData := by
  simp [analyzeTrafficImpact, foldl_delay_eq]

theorem analyzeTrafficImpact_requires (trafficData : List TrafficReading)
    (departureTime vehicleType : String) :
    (analyzeTrafficImpact trafficData departureTime vehicleType).1.requiresOptimization = true ↔
      (totalDelay trafficData > 30 ∨ 1 < highCongestionCount trafficData) := by
  simp [analyzeTrafficImpact, foldl_delay_eq, highCongestionCount]

theorem analyzeTrafficImpact_route (trafficData : List TrafficReading)
    (departureTime vehicleType : String) :
    (analyzeTrafficImpact trafficData departureTime vehicleType).1.optimizedRoute =
      if totalDelay trafficData > 30 then
        some ((jsSort congestionCompare trafficData).map (fun t => t.waypoint))
      else none := by
  simp only [analyzeTrafficImpact, foldl_delay_eq, generateOptimizedRoute, zero_add]
  split <;> rfl

/-- C3: the total delay is the sum of the readings' estimated delays, and the
optimisation flag holds exactly when that sum exceeds 30 or more than one
reading is classified `high`; delays 10, 25, 40 raise the flag. -/
theorem analyzeTrafficImpact_flag (trafficData : List TrafficReading)
    (departureTime vehicleType : String) :
    (analyzeTrafficImpact trafficData departureTime vehicleType).1.totalDelayMinutes =
      (trafficData.map (fun t => t.estimated_delay_minutes)).sum ∧
    ((analyzeTrafficImpact trafficData departureTime vehicleType).1.requiresOptimization = true ↔
      ((trafficData.map (fun t => t.estimated_delay_minutes)).sum > 30 ∨
        1 < (trafficData.filter (fun t => t.congestion_level == "high")).length)) ∧
    (trafficData.map (fun t => t.estimated_delay_minutes) = [10, 25, 40] →
      (analyzeTrafficImpact trafficData departureTime vehicleType).1.requiresOptimization
        = true) := by
  refine ⟨analyzeTrafficImpact_total _ _ _, analyzeTrafficImpact_requires _ _ _, ?_⟩
  intro h
  rw [analyzeTrafficImpact_requires]
  left
  simp [totalDelay, h]

theorem analyzeTrafficImpact_flag_witness :
    (analyzeTrafficImpact sampleTraffic "09:00" "van").1.requiresOptimization = true :=
  (analyzeTrafficImpact_flag sampleTraffic "09:00" "van").2.2 (by decide)

/-- C4: at a batch of two waypoints, both classified `high`, whose delays sum to 30
or less, the verdict raises `requiresOptimization` and its `optimizedRoute` is
`null`. -/
theorem analyzeTrafficImpact_flag_without_route :
    (analyzeTrafficImpact congestedTraffic "09:00" "van").1.requiresOptimization = true ∧
    (analyzeTrafficImpact congestedTraffic "09:00" "van").1.optimizedRoute = none := by
  decide

/-! ## The optimised route -/

theorem orderedInsert_congr {α : Type} (r r' : α → α → Prop) [DecidableRel r] [DecidableRel r']
    (a : α) (l : List α) (h : ∀ b ∈ l, (r a b ↔ r' a b)) :
    l.orderedInsert r a = l.orderedInsert r' a := by
  induction l with
  | nil => rfl
  | cons b l ih =>
    have hb := h b (List.mem_cons_self b l)
    have hl := ih (fun c hc => h c (List.mem_cons_of_mem b hc))
    by_cases hr : r a b
    · simp [List.orderedInsert, hr, hb.mp hr]
    · have hr' : ¬ r' a b := fun h' => hr (hb.mpr h')
      simp [List.orderedInsert, hr, hr', hl]

theorem insertionSort_congr {α : Type} (r r' : α → α → Prop) [DecidableRel r] [DecidableRel r']
    (l : List α) (h : ∀ a ∈ l, ∀ b ∈ l, (r a b ↔ r' a b)) :
    l.insertionSort r = l.insertionSort r' := by
  induction l with
  | nil => rfl
  | cons a l ih =>
    have hl := ih (fun x hx y hy => h x (List.mem_cons_of_mem a hx) y (List.mem_cons_of_mem a hy))
    simp only [List.insertionSort, hl]
    apply orderedInsert_congr
    intro b hb
    rw [List.mem_insertionSort] at hb
    exact h a (List.mem_cons_self a l) b (List.mem_cons_of_mem a hb)

theorem filter_insertionSort {α : Type} (r : α → α → Prop) [DecidableRel r] (p : α → Bool)
    (l : List α) (h : ∀ a ∈ l, ∀ b ∈ l, p a = true → p b = true → r a b) :
    (l.insertionSort r).filter p = l.filter p := by
  symm
  apply List.Sublist.eq_of_length
  · have hsub : List.Sublist (l.filter p) (l.insertionSort r) := by
      apply List.sublist_insertionSort _ (List.filter_sublist l)
      apply List.pairwise_of_forall_mem_list
      intro a ha b hb
      rw [List.mem_filter] at ha hb
      exact h a ha.1 b hb.1 ha.2 hb.2
    have := hsub.filter p
    simpa [List.filter_filter] using this
  · exact ((List.perm_insertionSort r l).filter p).length_eq.symm

theorem congestionCompare_le_iff (a b : TrafficReading) (ha : KnownLevel a.congestion_level)
    (hb : KnownLevel b.congestion_level) :
    congestionCompare a b ≤ 0 ↔ SeverityLe a b := by
  rcases ha with ha | ha | ha <;> rcases hb with hb | hb | hb <;>
    simp [congestionCompare, congestionScore, SeverityLe, severityRank, ha, hb]

theorem jsSort_congestion_eq (trafficData : List TrafficReading)
    (hlevels : ∀ t ∈ trafficData, KnownLevel t.congestion_level) :
    jsSort congestionCompare trafficData = trafficData.insertionSort SeverityLe :=
  insertionSort_congr _ _ _
    (fun a ha b hb => congestionCompare_le_iff a b (hlevels a ha) (hlevels b hb))

/-- C5: for a batch whose congestion levels are all `low`, `medium` or `high` and
whose total delay exceeds 30 minutes, the optimised route lists the waypoints of
the batch stably sorted by severity: of a permutation of the batch that is
non-decreasing in severity rank and in which the readings of each severity
appear in their original order. -/
theorem analyzeTrafficImpact_stable_sort (trafficData : List TrafficReading)
    (departureTime vehicleType : String)
    (hlevels : ∀ t ∈ trafficData, KnownLevel t.congestion_level)
    (hdelay : (trafficData.map (fun t => t.estimated_delay_minutes)).sum > 30) :
    ∃ sorted : List TrafficReading,
      (analyzeTrafficImpact trafficData departureTime vehicleType).1.optimizedRoute =
        some (sorted.map (fun t => t.waypoint)) ∧
      sorted.Perm trafficData ∧
      sorted.Sorted
        (fun a b => severityRank a.congestion_level ≤ severityRank b.congestion_level) ∧
      ∀ level : String,
        sorted.filter (fun t => t.congestion_level == level) =
          trafficData.filter (fun t => t.congestion_level == level) := by
  refine ⟨trafficData.insertionSort SeverityLe, ?_, List.perm_insertionSort _ _,
    List.sorted_insertionSort SeverityLe trafficData, ?_⟩
  · have hd : totalDelay trafficData > 30 := hdelay
    rw [analyzeTrafficImpact_route, if_pos hd, jsSort_congestion_eq _ hlevels]
  · intro level
    apply filter_insertionSort
    intro a _ b _ ha hb
    have ha' : a.congestion_level = level := by simpa using ha
    have hb' : b.congestion_level = level := by simpa using hb
    simp [SeverityLe, ha', hb']

theorem analyzeTrafficImpact_stable_sort_witness :
    ∃ sorted : List TrafficReading,
      (analyzeTrafficImpact sampleTraffic "09:00" "van").1.optimizedRoute =
        some (sorted.map (fun t => t.waypoint)) ∧
      sorted.Perm sampleTraffic ∧
      sorted.Sorted
        (fun a b => severityRank a.congestion_level ≤ severityRank b.congestion_level) ∧
      ∀ level : String,
        sorted.filter (fun t => t.congestion_level == level) =
          sampleTraffic.filter (fun t => t.congestion_level == level) :=
  analyzeTrafficImpact_stable_sort sampleTraffic "09:00" "van"
    (by decide) (by decide)

/-! ## The traffic request -/

theorem getTrafficConditions_of_flag (env : Environment) (event : Event)
    (trafficData : List TrafficReading) (hsignal : env.trafficSignal = .ok trafficData)
    (hflag : (analyzeTrafficImpact trafficData event.departure_time
      event.vehicle_type).1.requiresOptimization = true) :
    getTrafficConditions env event = .error "optimizeRouteForTraffic is not defined" := by
  simp [getTrafficConditions, hsignal, hflag, optimizeRouteForTraffic]

theorem getTrafficConditions_of_not_flag (env : Environment) (event : Event)
    (trafficData : List TrafficReading) (hsignal : env.trafficSignal = .ok trafficData)
    (hflag : (analyzeTrafficImpact trafficData event.departure_time
      event.vehicle_type).1.requiresOptimization = false) :
    getTrafficConditions env event = .ok
      { traffic_conditions :=
          (analyzeTrafficImpact trafficData event.departure_time event.vehicle_type).2
        route_analysis :=
          (analyzeTrafficImpact trafficData event.departure_time event.vehicle_type).1
        optimized_route := none
        estimated_delays :=
          (analyzeTrafficImpact trafficData event.departure_time event.vehicle_type).1.delays
        autonomous_actions_taken := ["route_confirmed"] } := by
  simp [getTrafficConditions, hsignal, hflag]

theorem handler_traffic_of_flag (env : Environment) (items : List OrderItem) (event : Event)
    (trafficData : List TrafficReading) (hfunction : event.function = "getTrafficConditions")
    (hsignal : env.trafficSignal = .ok trafficData)
    (hflag : (analyzeTrafficImpact trafficData event.departure_time
      event.vehicle_type).1.requiresOptimization = true) :
    (handler env items event).1 =
      { statusCode := 500
        body := .failure "optimizeRouteForTraffic is not defined" "getTrafficConditions" } := by
  simp [handler, hfunction, getTrafficConditions_of_flag env event trafficData hsignal hflag,
    Except.map]

theorem handler_traffic_of_not_flag (env : Environment) (items : List OrderItem) (event : Event)
    (trafficData : List TrafficReading) (hfunction : event.function = "getTrafficConditions")
    (hsignal : env.trafficSignal = .ok trafficData)
    (hflag : (analyzeTrafficImpact trafficData event.departure_time
      event.vehicle_type).1.requiresOptimization = false) :
    (handler env items event).1 =
      { statusCode := 200
        body := .traffic
          { traffic_conditions :=
              (analyzeTrafficImpact trafficData event.departure_time event.vehicle_type).2
            route_analysis :=
              (analyzeTrafficImpact trafficData event.departure_time event.vehicle_type).1
            optimized_route := none
            estimated_delays :=
              (analyzeTrafficImpact trafficData event.departure_time
                event.vehicle_type).1.delays
            autonomous_actions_taken := ["route_confirmed"] } } := by
  simp [handler, hfunction,
    getTrafficConditions_of_not_flag env event trafficData hsignal hflag, Except.map]

/-- C6: at a request whose traffic source returns three waypoints with delays 10, 25
and 40 (so that `requiresOptimization` holds), the handler returns status 500
with the error `optimizeRouteForTraffic is not defined`, not status 200; at a
request whose batch does not raise the flag it returns status 200 with a `null`
route and `route_confirmed`. -/
theorem handler_traffic_flagged_is_500 :
    (analyzeTrafficImpact sampleTraffic "09:00" "van").1.requiresOptimization = true ∧
    (handler sampleEnvironment [] trafficEvent).1 =
      { statusCode := 500
        body := .failure "optimizeRouteForTraffic is not defined" "getTrafficConditions" } ∧
    (handler sampleEnvironment [] trafficEvent).1.statusCode ≠ 200 ∧
    ∃ body : TrafficBody,
      (handler quietEnvironment [] trafficEvent).1 = { statusCode := 200, body := .traffic body } ∧
      body.optimized_route = none ∧
      body.autonomous_actions_taken = ["route_confirmed"] := by
  refine ⟨by decide, by decide, by decide, ?_⟩
  have h := handler_traffic_of_not_flag quietEnvironment [] trafficEvent _ rfl rfl (by decide)
  exact ⟨_, h, rfl, rfl⟩

/-! ## The tracking simulator: basic facts -/

theorem quotientGt_tenth (ms : Int) :
    quotientGt ms (1000 * 60 * 60) 1 10 = decide (ms > T1) := by
  simp only [quotientGt, T1, decide_eq_decide]
  omega

theorem quotientGt_fifth (ms : Int) :
    quotientGt ms (1000 * 60 * 60) 2 10 = decide (ms > T2) := by
  simp only [quotientGt, T2, decide_eq_decide]
  omega

theorem jsSort_timestamp (timeline : List TimelineEvent) :
    jsSort timestampCompare timeline = timeline.insertionSort TimestampLe := by
  apply insertionSort_congr
  intro a _ b _
  simp only [timestampCompare, TimestampLe]
  omega

theorem jsSort_timestamp_sorted (timeline : List TimelineEvent) :
    (jsSort timestampCompare timeline).Sorted TimestampLe := by
  rw [jsSort_timestamp]
  exact List.sorted_insertionSort TimestampLe timeline

theorem jsSort_timestamp_perm (timeline : List TimelineEvent) :
    (jsSort timestampCompare timeline).Perm timeline := by
  rw [jsSort_timestamp]
  exact List.perm_insertionSort TimestampLe timeline

theorem jsSort_timestamp_of_sorted (timeline : List TimelineEvent)
    (h : timeline.Sorted TimestampLe) : jsSort timestampCompare timeline = timeline := by
  rw [jsSort_timestamp]
  exact List.Sorted.insertionSort_eq h

theorem jsSort_timestamp_idem (timeline : List TimelineEvent) :
    jsSort timestampCompare (jsSort timestampCompare timeline) =
      jsSort timestampCompare timeline :=
  jsSort_timestamp_of_sorted _ (jsSort_timestamp_sorted timeline)

theorem find_modifyFirst {α : Type} (p : α → Bool) (x : α) (l : List α) (hx : p x = true)
    (hl : (l.find? p).isSome = true) :
    (modifyFirst p (fun _ => x) l).find? p = some x := by
  induction l with
  | nil => simp at hl
  | cons a l ih =>
    by_cases ha : p a = true
    · simp [modifyFirst, ha, hx]
    · have hl' : (l.find? p).isSome = true := by simpa [List.find?, ha] using hl
      simp [modifyFirst, ha, ih hl']

theorem modifyFirst_modifyFirst {α : Type} (p : α → Bool) (x y : α) (l : List α)
    (hx : p x = true) :
    modifyFirst p (fun _ => y) (modifyFirst p (fun _ => x) l) = modifyFirst p (fun _ => y) l := by
  induction l with
  | nil => rfl
  | cons a l ih =>
    by_cases ha : p a = true
    · simp [modifyFirst, ha, hx]
    · simp [modifyFirst, ha, ih]

theorem modifyFirst_of_none {α : Type} (p : α → Bool) (f : α → α) (l : List α)
    (h : l.find? p = none) : modifyFirst p f l = l := by
  induction l with
  | nil => rfl
  | cons a l ih =>
    by_cases ha : p a = true
    · simp [List.find?, ha] at h
    · have hl : l.find? p = none := by simpa [List.find?, ha] using h
      simp [modifyFirst, ha, ih hl]

theorem modifyFirst_append_of_none {α : Type} (p : α → Bool) (f : α → α) (l : List α) (x : α)
    (h : l.find? p = none) (hx : p x = true) : modifyFirst p f (l ++ [x]) = l ++ [f x] := by
  induction l with
  | nil => simp [modifyFirst, hx]
  | cons a l ih =>
    by_cases ha : p a = true
    · simp [List.find?, ha] at h
    · have hl : l.find? p = none := by simpa [List.find?, ha] using h
      simp [modifyFirst, ha, ih hl]

theorem find_append_of_none {α : Type} (p : α → Bool) (l : List α) (x : α)
    (h : l.find? p = none) (hx : p x = true) : (l ++ [x]).find? p = some x := by
  simp [List.find?_append, h, hx]

theorem getD_append_length {α : Type} (l : List α) (x d : α) :
    (l ++ [x]).getD l.length d = x := by
  simp

theorem set_append_length {α : Type} (l : List α) (x y : α) :
    (l ++ [x]).set l.length y = l ++ [y] := by
  simp

/-! ## Tracking a fresh order -/

theorem find_none_of_forall {α : Type} (p : α → Bool) (l : List α)
    (h : ∀ x ∈ l, p x = false) : l.find? p = none := by
  rw [List.find?_eq_none]
  intro x hx
  simp [h x hx]

theorem track_create (s : Store) (createdAt now : Int) (random : String) (orderData : Payload)
    (hpayload : orderData.trackingId = none)
    (hrecords : ∀ t ∈ s.tracking, t.trackingId ≠ generateTrackingId random)
    (horders : ∀ o ∈ s.orders, o.trackingId ≠ generateTrackingId random) :
    ∃ (order : Order) (record : TrackingRecord),
      (create s createdAt random orderData).1 =
        { orders := s.orders ++ [order], tracking := s.tracking ++ [record],
          heap := s.heap ++ [[placedEvent createdAt]] } ∧
      record.status = "created" ∧
      record.currentLocation.address = "Processing Center" ∧
      track (create s createdAt random orderData).1 now (generateTrackingId random) =
        ({ orders := s.orders ++ [order]
           tracking := s.tracking ++
             [(simulateProgress createdAt now record [placedEvent createdAt]).1]
           heap := s.heap ++ [jsSort timestampCompare
             (simulateProgress createdAt now record [placedEvent createdAt]).2] },
         .ok
           { trackingId := (simulateProgress createdAt now record [placedEvent createdAt]).1.trackingId
             orderId := (simulateProgress createdAt now record [placedEvent createdAt]).1.orderId
             status := (simulateProgress createdAt now record [placedEvent createdAt]).1.status
             currentLocation :=
               (simulateProgress createdAt now record [placedEvent createdAt]).1.currentLocation
             estimatedDelivery := createdAt + 24 * 60 * 60 * 1000
             timeline := jsSort timestampCompare
               (simulateProgress createdAt now record [placedEvent createdAt]).2 }) := by
  refine ⟨_, _, rfl, rfl, rfl, ?_⟩
  have hr : s.tracking.find? (fun t => t.trackingId == generateTrackingId random) = none :=
    find_none_of_forall _ _ (fun t ht => by simpa using hrecords t ht)
  have ho : s.orders.find? (fun o => o.trackingId == generateTrackingId random) = none :=
    find_none_of_forall _ _ (fun o ho => by simpa using horders o ho)
  simp only [track, create, hpayload, Option.getD_none]
  rw [find_append_of_none _ _ _ hr (by simp), find_append_of_none _ _ _ ho (by simp)]
  simp only [Store.timelineAt, getD_append_length, set_append_length, placedEvent]
  rw [modifyFirst_append_of_none _ _ _ _ hr (by simp)]

theorem simulateProgress_fresh_early (createdAt now : Int) (record : TrackingRecord)
    (timeline : List TimelineEvent) (h : now - createdAt ≤ T1) :
    simulateProgress createdAt now record timeline = (record, timeline) := by
  have h1 : ¬ now - createdAt > T1 := by omega
  have h2 : ¬ now - createdAt > T2 := by simp only [T1, T2] at *; omega
  simp only [simulateProgress, quotientGt_tenth, quotientGt_fifth]
  simp [h1, h2]

theorem simulateProgress_fresh_middle (createdAt now : Int) (record : TrackingRecord)
    (h1 : T1 < now - createdAt) (h2 : now - createdAt ≤ T2) :
    simulateProgress createdAt now record [placedEvent createdAt] =
      ({ record with
           status := "picked_up"
           currentLocation :=
             { address := "Pickup Location",
               coordinates := { lat := 407589, lng := -739851 } } },
       [placedEvent createdAt, pickedUpEvent createdAt]) := by
  have h2' : ¬ now - createdAt > T2 := by omega
  simp only [simulateProgress, quotientGt_tenth, quotientGt_fifth]
  simp [h1, h2', pushUnlessPresent, placedEvent, pickedUpEvent]

theorem simulateProgress_fresh_late (createdAt now : Int) (record : TrackingRecord)
    (h2 : T2 < now - createdAt) :
    simulateProgress createdAt now record [placedEvent createdAt] =
      ({ record with
           status := "in_transit"
           currentLocation :=
             { address := "Distribution Center - Manhattan",
               coordinates := { lat := 407282, lng := -737949 } } },
       [placedEvent createdAt, pickedUpEvent createdAt, inTransitEvent createdAt]) := by
  have h1 : T1 < now - createdAt := by simp only [T1, T2] at *; omega
  simp only [simulateProgress, quotientGt_tenth, quotientGt_fifth]
  simp [h1, h2, pushUnlessPresent, placedEvent, pickedUpEvent, inTransitEvent]

theorem sorted_fresh_timeline (createdAt : Int) :
    [placedEvent createdAt, pickedUpEvent createdAt, inTransitEvent createdAt].Sorted
      TimestampLe := by
  simp [List.Sorted, TimestampLe, placedEvent, pickedUpEvent, inTransitEvent]

/-- The response of the tracking route for an order just created, by the time
elapsed since its creation. -/
theorem track_fresh (s : Store) (createdAt now : Int) (random : String)
    (orderData : Payload) (hpayload : orderData.trackingId = none)
    (hrecords : ∀ t ∈ s.tracking, t.trackingId ≠ generateTrackingId random)
    (horders : ∀ o ∈ s.orders, o.trackingId ≠ generateTrackingId random) :
    (now - createdAt ≤ T1 →
      (track (create s createdAt random orderData).1 now (generateTrackingId random)).2.status
        = some "created" ∧
      (track (create s createdAt random orderData).1 now (generateTrackingId random)).2.address
        = some "Processing Center" ∧
      (track (create s createdAt random orderData).1 now (generateTrackingId random)).2.timeline
        = some [{ status := "Order Placed", timestamp := createdAt,
                  location := "Online Platform" }] ∧
      (track (create s createdAt random orderData).1 now (generateTrackingId random)).1
        = (create s createdAt random orderData).1) ∧
    (T1 < now - createdAt → now - createdAt ≤ T2 →
      (track (create s createdAt random orderData).1 now (generateTrackingId random)).2.status
        = some "picked_up" ∧
      (track (create s createdAt random orderData).1 now (generateTrackingId random)).2.timeline
        = some [{ status := "Order Placed", timestamp := createdAt,
                  location := "Online Platform" },
                { status := "Picked Up", timestamp := createdAt + T1,
                  location := "Pickup Location" }]) ∧
    (T2 < now - createdAt →
      (track (create s createdAt random orderData).1 now (generateTrackingId random)).2.status
        = some "in_transit" ∧
      (track (create s createdAt random orderData).1 now (generateTrackingId random)).2.timeline
        = some [{ status := "Order Placed", timestamp := createdAt,
                  location := "Online Platform" },
                { status := "Picked Up", timestamp := createdAt + T1,
                  location := "Pickup Location" },
                { status := "In Transit", timestamp := createdAt + T2,
                  location := "Distribution Center - Manhattan" }]) := by
  obtain ⟨order, record, hcreate, hstatus, haddress, htrack⟩ :=
    track_create s createdAt now random orderData hpayload hrecords horders
  have hsorted := sorted_fresh_timeline createdAt
  have hsorted2 : [placedEvent createdAt, pickedUpEvent createdAt].Sorted TimestampLe := by
    simp [List.Sorted, TimestampLe, placedEvent, pickedUpEvent]
  have hsorted1 : [placedEvent createdAt].Sorted TimestampLe := List.sorted_singleton _
  rw [htrack, hcreate]
  refine ⟨fun h => ?_, fun h1 h2 => ?_, fun h2 => ?_⟩
  · rw [simulateProgress_fresh_early createdAt now record _ h]
    rw [jsSort_timestamp_of_sorted _ hsorted1]
    exact ⟨by simp [TrackingResponse.status, hstatus],
      by simp [TrackingResponse.address, haddress], rfl, rfl⟩
  · rw [simulateProgress_fresh_middle createdAt now record h1 h2]
    rw [jsSort_timestamp_of_sorted _ hsorted2]
    exact ⟨rfl, rfl⟩
  · rw [simulateProgress_fresh_late createdAt now record h2]
    rw [jsSort_timestamp_of_sorted _ hsorted]
    exact ⟨rfl, rfl⟩

/-- C7, amended: for an order just created from a payload without a tracking id,
under a tracking id no earlier record or order has, tracking at elapsed time
`e = now - createdAt` gives: for `e ≤ T1` status `created`, the location and the
store unchanged and no event appended; for `T1 < e ≤ T2` status `picked_up` and
the timeline `Order Placed`, `Picked Up` at `createdAt + T1`; for `e > T2` status
`in_transit` and the timeline `Order Placed`, `Picked Up` at `createdAt + T1`,
`In Transit` at `createdAt + T2`. -/
theorem track_fresh_order (s : Store) (createdAt now : Int) (random : String)
    (orderData : Payload) (hpayload : orderData.trackingId = none)
    (hrecords : ∀ t ∈ s.tracking, t.trackingId ≠ generateTrackingId random)
    (horders : ∀ o ∈ s.orders, o.trackingId ≠ generateTrackingId random) :
    (now - createdAt ≤ T1 →
      (track (create s createdAt random orderData).1 now (generateTrackingId random)).2.status
        = some "created" ∧
      (track (create s createdAt random orderData).1 now (generateTrackingId random)).2.address
        = some "Processing Center" ∧
      (track (create s createdAt random orderData).1 now (generateTrackingId random)).2.timeline
        = some [{ status := "Order Placed", timestamp := createdAt,
                  location := "Online Platform" }] ∧
      (track (create s createdAt random orderData).1 now (generateTrackingId random)).1
        = (create s createdAt random orderData).1) ∧
    (T1 < now - createdAt → now - createdAt ≤ T2 →
      (track (create s createdAt random orderData).1 now (generateTrackingId random)).2.status
        = some "picked_up" ∧
      (track (create s createdAt random orderData).1 now (generateTrackingId random)).2.timeline
        = some [{ status := "Order Placed", timestamp := createdAt,
                  location := "Online Platform" },
                { status := "Picked Up", timestamp := createdAt + T1,
                  location := "Pickup Location" }]) ∧
    (T2 < now - createdAt →
      (track (create s createdAt random orderData).1 now (generateTrackingId random)).2.status
        = some "in_transit" ∧
      (track (create s createdAt random orderData).1 now (generateTrackingId random)).2.timeline
        = some [{ status := "Order Placed", timestamp := createdAt,
                  location := "Online Platform" },
                { status := "Picked Up", timestamp := createdAt + T1,
                  location := "Pickup Location" },
                { status := "In Transit", timestamp := createdAt + T2,
                  location := "Distribution Center - Manhattan" }]) :=
  track_fresh s createdAt now random orderData hpayload hrecords horders

theorem track_fresh_order_witness :
    (track (create Store.empty 1000 "AB12" {}).1 500000 (generateTrackingId "AB12")).2.status
      = some "picked_up" ∧
    (track (create Store.empty 1000 "AB12" {}).1 500000 (generateTrackingId "AB12")).2.timeline
      = some [{ status := "Order Placed", timestamp := 1000, location := "Online Platform" },
              { status := "Picked Up", timestamp := 1000 + T1, location := "Pickup Location" }] :=
  (track_fresh_order Store.empty 1000 500000 "AB12" {} rfl (by simp [Store.empty])
    (by simp [Store.empty])).2.1 (by decide) (by decide)

/-- C7, as stated, fails at the thresholds: an order created at time 0 and tracked
at exactly six minutes is still `created` with no `Picked Up` event, and tracked
at exactly twelve minutes it is `picked_up` with no `In Transit` event. -/
theorem track_at_threshold :
    (0 : Int) + T1 - 0 = T1 ∧
    (track (create Store.empty 0 "AB12" {}).1 (0 + T1) "TRKAB12").2.status = some "created" ∧
    (track (create Store.empty 0 "AB12" {}).1 (0 + T1) "TRKAB12").2.timeline =
      some [{ status := "Order Placed", timestamp := 0, location := "Online Platform" }] ∧
    (track (create Store.empty 0 "AB12" {}).1 (0 + T2) "TRKAB12").2.status = some "picked_up" ∧
    (track (create Store.empty 0 "AB12" {}).1 (0 + T2) "TRKAB12").2.timeline =
      some [{ status := "Order Placed", timestamp := 0, location := "Online Platform" },
            { status := "Picked Up", timestamp := 360000, location := "Pickup Location" }] := by
  decide

/-! ## The status the simulator leaves -/

theorem simulateProgress_trackingId (createdAt now : Int) (record : TrackingRecord)
    (timeline : List TimelineEvent) :
    (simulateProgress createdAt now record timeline).1.trackingId = record.trackingId := by
  simp only [simulateProgress]
  split <;> split <;> rfl

theorem simulateProgress_timeline (createdAt now : Int) (record : TrackingRecord)
    (timeline : List TimelineEvent) :
    (simulateProgress createdAt now record timeline).1.timeline = record.timeline := by
  simp only [simulateProgress]
  split <;> split <;> rfl

theorem simulateProgress_status (createdAt now : Int) (record : TrackingRecord)
    (timeline : List TimelineEvent) :
    (simulateProgress createdAt now record timeline).1.status =
      simulatedStatus record.status (some (now - createdAt)) := by
  simp only [simulateProgress, quotientGt_tenth, quotientGt_fifth, simulatedStatus,
    decide_eq_true_eq]
  split <;> split <;> rfl

theorem track_status (s : Store) (now : Int) (trackingId : String) (record : TrackingRecord)
    (hrecord : s.tracking.find? (fun t => t.trackingId == trackingId) = some record) :
    (track s now trackingId).2.status =
        some (simulatedStatus record.status
          ((s.orders.find? (fun o => o.trackingId == trackingId)).map
            (fun o => now - o.createdAt))) ∧
    (track s now trackingId).1.trackingStatus trackingId = (track s now trackingId).2.status := by
  have hid : (record.trackingId == trackingId) = true := by
    have := List.find?_some hrecord
    simpa using this
  have hsome : (s.tracking.find? (fun t => t.trackingId == trackingId)).isSome = true := by
    simp [hrecord]
  cases horder : s.orders.find? (fun o => o.trackingId == trackingId) with
  | none =>
    constructor
    · simp [track, hrecord, horder, TrackingResponse.status, simulatedStatus]
    · simp only [track, hrecord, horder, Store.trackingStatus, TrackingResponse.status]
      rw [find_modifyFirst (fun t : TrackingRecord => t.trackingId == trackingId) record
        s.tracking hid hsome]
      rfl
  | some o =>
    constructor
    · simp [track, hrecord, horder, TrackingResponse.status, simulateProgress_status]
    · simp only [track, hrecord, horder, Store.trackingStatus, TrackingResponse.status]
      rw [find_modifyFirst (fun t : TrackingRecord => t.trackingId == trackingId) _
        s.tracking (by simpa [simulateProgress_trackingId] using hid) hsome]
      rfl

/-- C8, amended: tracking keeps the stored status of a record only while the time
elapsed since the creation of its order is at most `T1`; for `T1 < e ≤ T2` it
sets the status to `picked_up` and for `e > T2` to `in_transit`, whatever the
stored status was, in the response and in the stored record alike. -/
theorem track_overwrites_status (s : Store) (now : Int) (trackingId : String)
    (record : TrackingRecord) (order : Order)
    (hrecord : s.tracking.find? (fun t => t.trackingId == trackingId) = some record)
    (horder : s.orders.find? (fun o => o.trackingId == trackingId) = some order) :
    (track s now trackingId).1.trackingStatus trackingId = (track s now trackingId).2.status ∧
    (now - order.createdAt ≤ T1 →
      (track s now trackingId).2.status = some record.status) ∧
    (T1 < now - order.createdAt → now - order.createdAt ≤ T2 →
      (track s now trackingId).2.status = some "picked_up") ∧
    (T2 < now - order.createdAt →
      (track s now trackingId).2.status = some "in_transit") := by
  obtain ⟨hresponse, hstored⟩ := track_status s now trackingId record hrecord
  rw [horder] at hresponse
  refine ⟨hstored, fun h => ?_, fun h1 h2 => ?_, fun h2 => ?_⟩
  · rw [hresponse]
    have h1 : ¬ now - order.createdAt > T1 := by omega
    have h2 : ¬ now - order.createdAt > T2 := by simp only [T1, T2] at *; omega
    simp [simulatedStatus, h1, h2]
  · rw [hresponse]
    have h2' : ¬ now - order.createdAt > T2 := by omega
    simp [simulatedStatus, h1, h2']
  · rw [hresponse]
    simp [simulatedStatus, h2]

theorem track_overwrites_status_witness :
    (track deliveredStore 800000 "TRKAB12").2.status = some "in_transit" :=
  (track_overwrites_status deliveredStore 800000 "TRKAB12" _ _ rfl rfl).2.2.2 (by decide)

/-- C8, as stated, fails: an order created at time 0 and set to `delivered` one
second later has a tracking record with status `delivered`; tracking it
thirteen minutes and twenty seconds after creation leaves the record with
status `in_transit`. -/
theorem track_regresses_delivered :
    deliveredStore.trackingStatus "TRKAB12" = some "delivered" ∧
    (track deliveredStore 800000 "TRKAB12").2.status = some "in_transit" ∧
    (track deliveredStore 800000 "TRKAB12").1.trackingStatus "TRKAB12" = some "in_transit" := by
  decide

/-! ## Tracking twice -/

theorem track_eq_trackFound (s : Store) (now : Int) (trackingId : String)
    (record : TrackingRecord)
    (hrecord : s.tracking.find? (fun t => t.trackingId == trackingId) = some record) :
    track s now trackingId = trackFound s now trackingId record := by
  simp only [track, hrecord, trackFound, progress]

theorem pushUnlessPresent_of_mem (timeline : List TimelineEvent) (event : TimelineEvent)
    (h : ∃ e ∈ timeline, e.status = event.status) :
    pushUnlessPresent timeline event = timeline := by
  have : (timeline.find? (fun t => t.status == event.status)).isSome = true := by
    rw [List.find?_isSome]
    obtain ⟨e, he, hs⟩ := h
    exact ⟨e, he, by simp [hs]⟩
  simp [pushUnlessPresent, this]

theorem mem_pushUnlessPresent (timeline : List TimelineEvent) (event e : TimelineEvent)
    (h : e ∈ timeline) : e ∈ pushUnlessPresent timeline event := by
  unfold pushUnlessPresent
  split
  · exact h
  · exact List.mem_append_left _ h

theorem status_mem_pushUnlessPresent (timeline : List TimelineEvent) (event : TimelineEvent) :
    ∃ e ∈ pushUnlessPresent timeline event, e.status = event.status := by
  unfold pushUnlessPresent
  split
  · rename_i h
    rw [List.find?_isSome] at h
    obtain ⟨e, he, hs⟩ := h
    exact ⟨e, he, by simpa using hs⟩
  · exact ⟨event, by simp, rfl⟩

theorem simulateProgress_record_idem (createdAt now : Int) (record : TrackingRecord)
    (timeline other : List TimelineEvent) :
    (simulateProgress createdAt now (simulateProgress createdAt now record timeline).1 other).1 =
      (simulateProgress createdAt now record timeline).1 := by
  simp only [simulateProgress]
  cases quotientGt (now - createdAt) (1000 * 60 * 60) 1 10 <;>
    cases quotientGt (now - createdAt) (1000 * 60 * 60) 2 10 <;> rfl

theorem simulateProgress_snd (createdAt now : Int) (record : TrackingRecord)
    (timeline : List TimelineEvent) :
    (simulateProgress createdAt now record timeline).2 =
      if now - createdAt > T2 then
        pushUnlessPresent
          (if now - createdAt > T1 then pushUnlessPresent timeline (pickedUpEvent createdAt)
           else timeline)
          (inTransitEvent createdAt)
      else if now - createdAt > T1 then pushUnlessPresent timeline (pickedUpEvent createdAt)
      else timeline := by
  simp only [simulateProgress, quotientGt_tenth, quotientGt_fifth, pickedUpEvent,
    inTransitEvent, decide_eq_true_eq]
  split <;> split <;> rfl

theorem simulateProgress_timeline_fixed (createdAt now : Int) (record other : TrackingRecord)
    (timeline later : List TimelineEvent)
    (h : ∀ e ∈ (simulateProgress createdAt now record timeline).2, e ∈ later) :
    (simulateProgress createdAt now other later).2 = later := by
  rw [simulateProgress_snd] at h ⊢
  by_cases h1 : now - createdAt > T1 <;> by_cases h2 : now - createdAt > T2 <;>
    simp only [h1, h2, if_true, if_false] at h ⊢
  · have hp : ∃ e ∈ later, e.status = (pickedUpEvent createdAt).status := by
      obtain ⟨e, he, hs⟩ := status_mem_pushUnlessPresent timeline (pickedUpEvent createdAt)
      exact ⟨e, h e (mem_pushUnlessPresent _ _ _ he), hs⟩
    have ht : ∃ e ∈ later, e.status = (inTransitEvent createdAt).status := by
      obtain ⟨e, he, hs⟩ := status_mem_pushUnlessPresent
        (pushUnlessPresent timeline (pickedUpEvent createdAt)) (inTransitEvent createdAt)
      exact ⟨e, h e he, hs⟩
    rw [pushUnlessPresent_of_mem later _ hp, pushUnlessPresent_of_mem later _ ht]
  · have hp : ∃ e ∈ later, e.status = (pickedUpEvent createdAt).status := by
      obtain ⟨e, he, hs⟩ := status_mem_pushUnlessPresent timeline (pickedUpEvent createdAt)
      exact ⟨e, h e he, hs⟩
    rw [pushUnlessPresent_of_mem later _ hp]
  · have ht : ∃ e ∈ later, e.status = (inTransitEvent createdAt).status := by
      obtain ⟨e, he, hs⟩ := status_mem_pushUnlessPresent timeline (inTransitEvent createdAt)
      exact ⟨e, h e he, hs⟩
    rw [pushUnlessPresent_of_mem later _ ht]

theorem simulateProgress_timeline_indep (createdAt now : Int) (record other : TrackingRecord)
    (timeline : List TimelineEvent) :
    (simulateProgress createdAt now other timeline).2 =
      (simulateProgress createdAt now record timeline).2 := by
  rw [simulateProgress_snd, simulateProgress_snd]

theorem progress_trackingId (order : Option Order) (now : Int) (record : TrackingRecord)
    (timeline : List TimelineEvent) :
    (progress order now record timeline).1.trackingId = record.trackingId := by
  cases order with
  | none => rfl
  | some o => exact simulateProgress_trackingId _ _ _ _

theorem progress_timeline (order : Option Order) (now : Int) (record : TrackingRecord)
    (timeline : List TimelineEvent) :
    (progress order now record timeline).1.timeline = record.timeline := by
  cases order with
  | none => rfl
  | some o => exact simulateProgress_timeline _ _ _ _

theorem progress_record_idem (order : Option Order) (now : Int) (record : TrackingRecord)
    (timeline other : List TimelineEvent) :
    (progress order now (progress order now record timeline).1 other).1 =
      (progress order now record timeline).1 := by
  cases order with
  | none => rfl
  | some o => exact simulateProgress_record_idem _ _ _ _ _

theorem progress_timeline_fixed (order : Option Order) (now : Int)
    (record other : TrackingRecord) (timeline later : List TimelineEvent)
    (h : ∀ e ∈ (progress order now record timeline).2, e ∈ later) :
    (progress order now other later).2 = later := by
  cases order with
  | none => rfl
  | some o => exact simulateProgress_timeline_fixed _ _ record other timeline later h

theorem progress_timeline_indep (order : Option Order) (now : Int)
    (record other : TrackingRecord) (timeline : List TimelineEvent) :
    (progress order now other timeline).2 = (progress order now record timeline).2 := by
  cases order with
  | none => rfl
  | some o => exact simulateProgress_timeline_indep _ _ _ _ _

theorem getD_set_self {α : Type} (l : List α) (n : Nat) (x d : α) :
    (l.set n x).getD n d = if n < l.length then x else d := by
  induction l generalizing n with
  | nil => simp
  | cons a l ih =>
    cases n with
    | zero => simp
    | succ n => simpa using ih n

theorem trackFound_timelineAt (s : Store) (now : Int) (trackingId : String)
    (record : TrackingRecord) :
    jsSort timestampCompare
      (progress (s.orders.find? (fun o => o.trackingId == trackingId)) now
        (progress (s.orders.find? (fun o => o.trackingId == trackingId)) now record
          (s.timelineAt record.timeline)).1
        ((trackFound s now trackingId record).1.timelineAt record.timeline)).2 =
    jsSort timestampCompare
      (progress (s.orders.find? (fun o => o.trackingId == trackingId)) now record
        (s.timelineAt record.timeline)).2 := by
  have hcell : (trackFound s now trackingId record).1.timelineAt record.timeline =
      if record.timeline < s.heap.length then
        jsSort timestampCompare
          (progress (s.orders.find? (fun o => o.trackingId == trackingId)) now record
            (s.timelineAt record.timeline)).2
      else [] := by
    simp only [trackFound, Store.timelineAt, getD_set_self]
  rw [hcell]
  by_cases hlt : record.timeline < s.heap.length
  · rw [if_pos hlt]
    rw [progress_timeline_fixed _ now record _ (s.timelineAt record.timeline) _
      (fun e he => ((jsSort_timestamp_perm _).mem_iff).mpr he)]
    exact jsSort_timestamp_idem _
  · rw [if_neg hlt]
    have hnil : s.timelineAt record.timeline = [] := by
      simp only [Store.timelineAt]
      exact List.getD_eq_default _ _ (by omega)
    rw [hnil, progress_timeline_indep _ now record _ []]

theorem trackFound_idem (s : Store) (now : Int) (trackingId : String) (record : TrackingRecord)
    (hid : (record.trackingId == trackingId) = true) :
    trackFound (trackFound s now trackingId record).1 now trackingId
        (progress (s.orders.find? (fun o => o.trackingId == trackingId)) now record
          (s.timelineAt record.timeline)).1 =
      trackFound s now trackingId record := by
  have hsort := trackFound_timelineAt s now trackingId record
  have hp : (fun t : TrackingRecord => t.trackingId == trackingId)
      (progress (s.orders.find? (fun o => o.trackingId == trackingId)) now record
        (s.timelineAt record.timeline)).1 = true := by
    simpa [progress_trackingId] using hid
  have horders : (trackFound s now trackingId record).1.orders = s.orders := rfl
  have htracking : (trackFound s now trackingId record).1.tracking =
      modifyFirst (fun t => t.trackingId == trackingId)
        (fun _ => (progress (s.orders.find? (fun o => o.trackingId == trackingId)) now
          record (s.timelineAt record.timeline)).1) s.tracking := rfl
  have hheap : (trackFound s now trackingId record).1.heap =
      s.heap.set record.timeline
        (jsSort timestampCompare
          (progress (s.orders.find? (fun o => o.trackingId == trackingId)) now
            record (s.timelineAt record.timeline)).2) := rfl
  generalize hs' : (trackFound s now trackingId record).1 = s' at hsort horders htracking hheap
  unfold trackFound
  simp only [horders, htracking, hheap, progress_timeline, progress_record_idem, hsort,
    List.set_set]
  rw [modifyFirst_modifyFirst (fun t : TrackingRecord => t.trackingId == trackingId) _ _ _ hp]

/-- C9: tracking a record a second time at the same clock reading returns the
response of the first call, timeline included, and leaves the store as the
first call left it: the second call appends no event. -/
theorem track_idempotent (s : Store) (now : Int) (trackingId : String) :
    track (track s now trackingId).1 now trackingId = track s now trackingId := by
  cases hrecord : s.tracking.find? (fun t => t.trackingId == trackingId) with
  | none =>
    have h : track s now trackingId = (s, .notFound) := by simp [track, hrecord]
    rw [h]
    exact h
  | some record =>
    have hid : (record.trackingId == trackingId) = true := by
      simpa using List.find?_some hrecord
    have hsome : (s.tracking.find? (fun t => t.trackingId == trackingId)).isSome = true := by
      simp [hrecord]
    rw [track_eq_trackFound s now trackingId record hrecord]
    have hfound : (trackFound s now trackingId record).1.tracking.find?
        (fun t => t.trackingId == trackingId) =
        some (progress (s.orders.find? (fun o => o.trackingId == trackingId)) now record
          (s.timelineAt record.timeline)).1 :=
      find_modifyFirst (fun t : TrackingRecord => t.trackingId == trackingId) _ s.tracking
        (by simpa [progress_trackingId] using hid) hsome
    rw [track_eq_trackFound _ now trackingId _ hfound]
    exact trackFound_idem s now trackingId record hid

/-! ## Timelines stay sorted -/

theorem HeapSorted.mono {clock later : Int} {s : Store} (h : HeapSorted clock s)
    (hle : clock ≤ later) : HeapSorted later s :=
  fun timeline ht => ⟨(h timeline ht).1, fun e he => Int.le_trans ((h timeline ht).2 e he) hle⟩

theorem HeapSorted.timelineAt {clock : Int} {s : Store} (h : HeapSorted clock s) (ref : Nat) :
    (s.timelineAt ref).Sorted TimestampLe ∧ ∀ e ∈ s.timelineAt ref, e.timestamp ≤ clock := by
  unfold Store.timelineAt
  by_cases hlt : ref < s.heap.length
  · rw [List.getD_eq_getElem _ _ hlt]
    exact h _ (List.getElem_mem hlt)
  · rw [List.getD_eq_default _ _ (by omega)]
    exact ⟨List.sorted_nil, fun e he => by simp at he⟩

theorem heapSorted_set {clock : Int} {s : Store} (h : HeapSorted clock s) (ref : Nat)
    (timeline : List TimelineEvent) (hsorted : timeline.Sorted TimestampLe)
    (hbound : ∀ e ∈ timeline, e.timestamp ≤ clock) (orders : List Order)
    (tracking : List TrackingRecord) :
    HeapSorted clock { orders := orders, tracking := tracking,
                       heap := s.heap.set ref timeline } := by
  intro tl htl
  rcases List.mem_or_eq_of_mem_set htl with hmem | heq
  · exact h tl hmem
  · rw [heq]
    exact ⟨hsorted, hbound⟩

theorem sorted_append_singleton (timeline : List TimelineEvent) (event : TimelineEvent)
    (hsorted : timeline.Sorted TimestampLe)
    (hbound : ∀ e ∈ timeline, e.timestamp ≤ event.timestamp) :
    (timeline ++ [event]).Sorted TimestampLe := by
  unfold List.Sorted
  rw [List.pairwise_append]
  refine ⟨hsorted, List.pairwise_singleton _ _, ?_⟩
  intro a ha b hb
  rw [List.mem_singleton] at hb
  rw [hb]
  exact hbound a ha

theorem pushUnlessPresent_bound (timeline : List TimelineEvent) (event : TimelineEvent)
    (clock : Int) (hbound : ∀ e ∈ timeline, e.timestamp ≤ clock)
    (hevent : event.timestamp ≤ clock) :
    ∀ e ∈ pushUnlessPresent timeline event, e.timestamp ≤ clock := by
  unfold pushUnlessPresent
  split
  · exact hbound
  · intro e he
    rcases List.mem_append.mp he with h | h
    · exact hbound e h
    · rw [List.mem_singleton] at h
      rw [h]
      exact hevent

theorem simulateProgress_bound (createdAt now : Int) (record : TrackingRecord)
    (timeline : List TimelineEvent) (hbound : ∀ e ∈ timeline, e.timestamp ≤ now) :
    ∀ e ∈ (simulateProgress createdAt now record timeline).2, e.timestamp ≤ now := by
  rw [simulateProgress_snd]
  by_cases h1 : now - createdAt > T1 <;> by_cases h2 : now - createdAt > T2 <;>
    simp only [h1, h2, if_true, if_false]
  · apply pushUnlessPresent_bound
    · apply pushUnlessPresent_bound _ _ _ hbound
      simp only [pickedUpEvent, T1] at *
      omega
    · simp only [inTransitEvent, T2] at *
      omega
  · apply pushUnlessPresent_bound _ _ _ hbound
    simp only [pickedUpEvent, T1] at *
    omega
  · apply pushUnlessPresent_bound _ _ _ hbound
    simp only [inTransitEvent, T2] at *
    omega
  · exact hbound

theorem progress_bound (order : Option Order) (now : Int) (record : TrackingRecord)
    (timeline : List TimelineEvent) (hbound : ∀ e ∈ timeline, e.timestamp ≤ now) :
    ∀ e ∈ (progress order now record timeline).2, e.timestamp ≤ now := by
  cases order with
  | none => exact hbound
  | some o => exact simulateProgress_bound _ _ _ _ hbound

theorem heapSorted_create (clock now : Int) (s : Store) (random : String) (orderData : Payload)
    (h : HeapSorted clock s) (hle : clock ≤ now) :
    HeapSorted now (create s now random orderData).1 := by
  intro tl htl
  simp only [create, List.mem_append, List.mem_singleton] at htl
  rcases htl with hmem | heq
  · exact (h.mono hle) tl hmem
  · rw [heq]
    exact ⟨List.sorted_singleton _, fun e he => by
      rw [List.mem_singleton] at he
      rw [he]⟩

theorem heapSorted_updateStatus (clock now : Int) (s : Store) (orderId : String)
    (status location : Option String) (h : HeapSorted clock s) (hle : clock ≤ now) :
    HeapSorted now (updateStatus s now orderId status location).1 := by
  have hnow := h.mono hle
  unfold updateStatus
  cases s.orders.find? (fun o => o.orderId == orderId) with
  | none => exact hnow
  | some order =>
    cases status with
    | none => exact hnow
    | some st =>
      have hcell := hnow.timelineAt order.timeline
      apply heapSorted_set hnow
      · exact sorted_append_singleton _ _ hcell.1 hcell.2
      · intro e he
        rcases List.mem_append.mp he with hmem | heq
        · exact hcell.2 e hmem
        · rw [List.mem_singleton] at heq
          rw [heq]

theorem heapSorted_track (clock now : Int) (s : Store) (trackingId : String)
    (h : HeapSorted clock s) (hle : clock ≤ now) :
    HeapSorted now (track s now trackingId).1 := by
  have hnow := h.mono hle
  cases hrecord : s.tracking.find? (fun t => t.trackingId == trackingId) with
  | none =>
    have ht : track s now trackingId = (s, .notFound) := by simp [track, hrecord]
    rw [ht]
    exact hnow
  | some record =>
    rw [track_eq_trackFound s now trackingId record hrecord]
    unfold trackFound
    apply heapSorted_set hnow
    · exact jsSort_timestamp_sorted _
    · intro e he
      rw [(jsSort_timestamp_perm _).mem_iff] at he
      exact progress_bound _ _ _ _ (hnow.timelineAt record.timeline).2 e he

theorem heapSorted_step (clock : Int) (s : Store) (op : Op) (h : HeapSorted clock s)
    (hle : clock ≤ op.now) : HeapSorted op.now (step s op) := by
  cases op with
  | create now random orderData => exact heapSorted_create clock now s random orderData h hle
  | updateStatus now orderId status location =>
    exact heapSorted_updateStatus clock now s orderId status location h hle
  | track now trackingId => exact heapSorted_track clock now s trackingId h hle

theorem heapSorted_run (ops : List Op) (clock : Int) (s : Store) (h : HeapSorted clock s)
    (hfirst : ∀ op ∈ ops, clock ≤ op.now)
    (hclock : (ops.map Op.now).Sorted (fun a b => a ≤ b)) :
    ∃ final : Int, HeapSorted final (run s ops) := by
  induction ops generalizing clock s with
  | nil => exact ⟨clock, h⟩
  | cons op rest ih =>
    simp only [List.map_cons, List.sorted_cons, List.mem_map, forall_exists_index, and_imp,
      forall_apply_eq_imp_iff₂] at hclock
    exact ih op.now (step s op) (heapSorted_step clock s op h (hfirst op (List.mem_cons_self _ _)))
      hclock.1 hclock.2

theorem track_timeline_sorted (s : Store) (now : Int) (trackingId : String)
    (timeline : List TimelineEvent)
    (h : (track s now trackingId).2.timeline = some timeline) :
    timeline.Sorted TimestampLe := by
  cases hrecord : s.tracking.find? (fun t => t.trackingId == trackingId) with
  | none =>
    have ht : track s now trackingId = (s, .notFound) := by simp [track, hrecord]
    rw [ht] at h
    simp [TrackingResponse.timeline] at h
  | some record =>
    rw [track_eq_trackFound s now trackingId record hrecord] at h
    simp only [trackFound, TrackingResponse.timeline, Option.some.injEq] at h
    rw [← h]
    exact jsSort_timestamp_sorted _

/-- C10: after any sequence of create, status-update and tracking requests served at
non-decreasing clock readings, the timeline of every order is sorted by
timestamp; and the timeline in the response of any tracking request is sorted
by timestamp. -/
theorem timelines_sorted (ops : List Op)
    (hclock : (ops.map Op.now).Sorted (fun a b => a ≤ b)) :
    (∀ o ∈ (run Store.empty ops).orders,
      ((run Store.empty ops).orderTimeline o).Sorted
        (fun a b => a.timestamp ≤ b.timestamp)) ∧
    (∀ (now : Int) (trackingId : String) (timeline : List TimelineEvent),
      (track (run Store.empty ops) now trackingId).2.timeline = some timeline →
        timeline.Sorted (fun a b => a.timestamp ≤ b.timestamp)) := by
  constructor
  · intro o _
    cases ops with
    | nil => exact List.sorted_nil
    | cons op rest =>
      have hempty : HeapSorted op.now Store.empty := fun tl htl => by
        simp [Store.empty] at htl
      have hfirst : ∀ op' ∈ op :: rest, op.now ≤ op'.now := by
        intro op' hop'
        rcases List.mem_cons.mp hop' with heq | hmem
        · rw [heq]
        · simp only [List.map_cons, List.sorted_cons, List.mem_map, forall_exists_index,
            and_imp, forall_apply_eq_imp_iff₂] at hclock
          exact hclock.1 op' hmem
      obtain ⟨final, hfinal⟩ := heapSorted_run (op :: rest) op.now Store.empty hempty hfirst hclock
      exact (hfinal.timelineAt o.timeline).1
  · intro now trackingId timeline h
    exact track_timeline_sorted _ now trackingId timeline h

theorem timelines_sorted_witness :
    (∀ o ∈ (run Store.empty sampleOps).orders,
      ((run Store.empty sampleOps).orderTimeline o).Sorted
        (fun a b => a.timestamp ≤ b.timestamp)) ∧
    (∀ (now : Int) (trackingId : String) (timeline : List TimelineEvent),
      (track (run Store.empty sampleOps) now trackingId).2.timeline = some timeline →
        timeline.Sorted (fun a b => a.timestamp ≤ b.timestamp)) :=
  timelines_sorted sampleOps (by decide)

/-! ## Creating an order -/

/-- C11: end to end, for a payload without a tracking id and a generated tracking id
that no earlier record or order carries: creating an order and tracking the
returned id at the creation time reports `created`; tracking it again at any
time later than `createdAt + T2` reports `in_transit` and a timeline of exactly
three events, `Order Placed`, `Picked Up` and `In Transit`, in ascending
timestamp order. -/
theorem create_then_track (s : Store) (createdAt now : Int) (random : String)
    (orderData : Payload) (hpayload : orderData.trackingId = none)
    (hrecords : ∀ t ∈ s.tracking, t.trackingId ≠ generateTrackingId random)
    (horders : ∀ o ∈ s.orders, o.trackingId ≠ generateTrackingId random)
    (hlater : createdAt + T2 < now) :
    (track (create s createdAt random orderData).1 createdAt
      (create s createdAt random orderData).2.trackingId).2.status = some "created" ∧
    (track (track (create s createdAt random orderData).1 createdAt
        (create s createdAt random orderData).2.trackingId).1 now
      (create s createdAt random orderData).2.trackingId).2.status = some "in_transit" ∧
    ∃ timeline : List TimelineEvent,
      (track (track (create s createdAt random orderData).1 createdAt
          (create s createdAt random orderData).2.trackingId).1 now
        (create s createdAt random orderData).2.trackingId).2.timeline = some timeline ∧
      timeline.length = 3 ∧
      timeline.map (fun e => e.status) = ["Order Placed", "Picked Up", "In Transit"] ∧
      timeline.Sorted (fun a b => a.timestamp ≤ b.timestamp) := by
  have hid : (create s createdAt random orderData).2.trackingId = generateTrackingId random := by
    simp [create, hpayload]
  rw [hid]
  have hfirst := (track_fresh s createdAt createdAt random orderData hpayload hrecords
    horders).1 (by simp [T1])
  have hsecond := (track_fresh s createdAt now random orderData hpayload hrecords
    horders).2.2 (by omega)
  rw [hfirst.2.2.2]
  refine ⟨hfirst.1, hsecond.1, _, hsecond.2, rfl, rfl, ?_⟩
  simp [List.Sorted, T1, T2]

theorem create_then_track_witness :
    (track (create Store.empty 1000 "AB12" {}).1 1000
      (create Store.empty 1000 "AB12" {}).2.trackingId).2.status = some "created" ∧
    (track (track (create Store.empty 1000 "AB12" {}).1 1000
        (create Store.empty 1000 "AB12" {}).2.trackingId).1 900000
      (create Store.empty 1000 "AB12" {}).2.trackingId).2.status = some "in_transit" ∧
    ∃ timeline : List TimelineEvent,
      (track (track (create Store.empty 1000 "AB12" {}).1 1000
          (create Store.empty 1000 "AB12" {}).2.trackingId).1 900000
        (create Store.empty 1000 "AB12" {}).2.trackingId).2.timeline = some timeline ∧
      timeline.length = 3 ∧
      timeline.map (fun e => e.status) = ["Order Placed", "Picked Up", "In Transit"] ∧
      timeline.Sorted (fun a b => a.timestamp ≤ b.timestamp) :=
  create_then_track Store.empty 1000 900000 "AB12" {} rfl (by simp [Store.empty])
    (by simp [Store.empty]) (by decide)

/-- C12: whatever the payload carries, `create` appends one order with status
`created`, `createdAt = now`, `estimatedDelivery = now + 24 h` and a timeline of
exactly one event, `Order Placed` at `Online Platform`, and appends one tracking
record with status `created`; both counts grow by one. -/
theorem create_stores (s : Store) (now : Int) (random : String) (orderData : Payload) :
    ∃ (order : Order) (record : TrackingRecord),
      (create s now random orderData).1.orders = s.orders ++ [order] ∧
      (create s now random orderData).1.tracking = s.tracking ++ [record] ∧
      order.status = some "created" ∧
      order.createdAt = now ∧
      order.estimatedDelivery = now + 24 * 60 * 60 * 1000 ∧
      (create s now random orderData).1.orderTimeline order =
        [{ status := "Order Placed", timestamp := now, location := "Online Platform" }] ∧
      record.status = "created" ∧
      (create s now random orderData).1.orders.length = s.orders.length + 1 ∧
      (create s now random orderData).1.tracking.length = s.tracking.length + 1 := by
  refine ⟨_, _, rfl, rfl, rfl, rfl, rfl, ?_, rfl, ?_, ?_⟩
  · simp [create, Store.orderTimeline, Store.timelineAt]
  · simp [create]
  · simp [create]

/-! ## Identifiers -/

/-- C13: two orders created at the same clock reading, from payloads without
identifier fields and with different random draws, have the same `orderId`
(and so have their tracking records). -/
theorem create_same_clock_same_orderId :
    (run Store.empty [.create 5 "AB12" {}, .create 5 "CD34" {}]).orders.map
      (fun o => o.orderId) = ["ORD-5", "ORD-5"] ∧
    (run Store.empty [.create 5 "AB12" {}, .create 5 "CD34" {}]).tracking.map
      (fun t => t.orderId) = ["ORD-5", "ORD-5"] ∧
    (run Store.empty [.create 5 "AB12" {}, .create 5 "CD34" {}]).orders.map
      (fun o => o.trackingId) = ["TRKAB12", "TRKCD34"] := by
  decide

/-- C14: for a payload that carries `orderId` and `trackingId`, the stored order has
the payload's identifiers while its tracking record has the generated ones, the
response returns the payload's tracking id, and tracking that id is a 404. -/
theorem create_payload_overrides_ids :
    (create Store.empty 0 "AB12" { orderId := some "MINE", trackingId := some "X1" }).1.orders.map
      (fun o => (o.orderId, o.trackingId)) = [("MINE", "X1")] ∧
    (create Store.empty 0 "AB12" { orderId := some "MINE", trackingId := some "X1" }).1.tracking.map
      (fun t => (t.orderId, t.trackingId)) = [("ORD-0", "TRKAB12")] ∧
    (create Store.empty 0 "AB12" { orderId := some "MINE", trackingId := some "X1" }).2.trackingId
      = "X1" ∧
    (track (create Store.empty 0 "AB12" { orderId := some "MINE", trackingId := some "X1" }).1 0
      (create Store.empty 0 "AB12"
        { orderId := some "MINE", trackingId := some "X1" }).2.trackingId).2 = .notFound := by
  decide

/-! ## The status route -/

/-- C16: for the status `out_for_delivery` the appended event carries the text
`Out For_delivery`: only the first underscore is replaced, and the rest stays one
word; for `in_transit`, with its single underscore, the text is `In Transit`. -/
theorem titleCase_out_for_delivery :
    titleCase "out_for_delivery" = "Out For_delivery" ∧
    titleCase "in_transit" = "In Transit" ∧
    (updateStatus oneOrder 5000 "ORD-0" (some "out_for_delivery") none).1.heap =
      [[{ status := "Order Placed", timestamp := 0, location := "Online Platform" },
        { status := "Out For_delivery", timestamp := 5000, location := "System Update" }]] := by
  decide

/-- C18: a status request without a `status` field on an existing order is answered
with the 500 response, after the order's `status` has been set to `undefined`
and its `updatedAt` to the clock reading; the timeline and the tracking record
are as before. -/
theorem updateStatus_missing_status_mutates :
    (updateStatus oneOrder 5000 "ORD-0" none none).2 = .serverError ∧
    oneOrder.orders.map (fun o => (o.status, o.updatedAt)) = [(some "created", none)] ∧
    (updateStatus oneOrder 5000 "ORD-0" none none).1.orders.map
      (fun o => (o.status, o.updatedAt)) = [(none, some 5000)] ∧
    (updateStatus oneOrder 5000 "ORD-0" none none).1.heap = oneOrder.heap ∧
    (updateStatus oneOrder 5000 "ORD-0" none none).1.tracking = oneOrder.tracking := by
  decide

/-! ## Listing orders -/

/-- C20: with five orders and `limit = 2`, page `-1` returns the second and third
order, not an empty slice; page `0` and page `4` return an empty slice. -/
theorem listOrders_negative_page :
    (listOrders fiveOrders none (some 2) (some (-1))).data.map (fun o => o.orderId) =
      ["ORD-2", "ORD-3"] ∧
    (listOrders fiveOrders none (some 2) (some (-1))).pagination.totalPages = some 3 ∧
    (listOrders fiveOrders none (some 2) (some 0)).data = [] ∧
    (listOrders fiveOrders none (some 2) (some 4)).data = [] := by
  decide

theorem modifyFirst_split {α : Type} (p : α → Bool) (f : α → α) (l : List α) (x : α)
    (h : l.find? p = some x) :
    ∃ before after : List α, l = before ++ x :: after ∧
      modifyFirst p f l = before ++ f x :: after := by
  induction l with
  | nil => simp at h
  | cons a l ih =>
    by_cases ha : p a = true
    · have hx : a = x := by simpa [List.find?, ha] using h
      subst hx
      exact ⟨[], l, by simp, by simp [modifyFirst, ha]⟩
    · have hl : l.find? p = some x := by simpa [List.find?, ha] using h
      obtain ⟨before, after, h1, h2⟩ := ih hl
      exact ⟨a :: before, after, by simp [h1], by simp [modifyFirst, ha, h2]⟩

theorem getD_set_of_ne {α : Type} (l : List α) (n m : Nat) (x d : α) (h : m ≠ n) :
    (l.set n x).getD m d = l.getD m d := by
  simp only [List.getD_eq_getElem?_getD]
  rw [List.getElem?_set_ne (Ne.symm h)]

/-- C15: for an existing order (the first with the id), its tracking record (the
first with the order id, sharing the order's timeline array) and any status
string, the status route sets the order's status and `updatedAt`, appends one
event with timestamp `now` and the given location, or `System Update` when none
is given, to the order's timeline, sets the record's status and, when a
location is given, its address; every other order, record and timeline array is
as before. -/
theorem updateStatus_effect (s : Store) (now : Int) (orderId status : String)
    (location : Option String) (order : Order) (record : TrackingRecord)
    (horder : s.orders.find? (fun o => o.orderId == orderId) = some order)
    (hrecord : s.tracking.find? (fun t => t.orderId == orderId) = some record)
    (hshared : record.timeline = order.timeline)
    (hvalid : order.timeline < s.heap.length) :
    (updateStatus s now orderId (some status) location).2 = .ok orderId status location now ∧
    (∃ before after : List Order,
      s.orders = before ++ order :: after ∧
      (updateStatus s now orderId (some status) location).1.orders =
        before ++ { order with status := some status, updatedAt := some now } :: after) ∧
    (∃ before after : List TrackingRecord,
      s.tracking = before ++ record :: after ∧
      (updateStatus s now orderId (some status) location).1.tracking =
        before ++
          { record with
              status := status
              currentLocation :=
                { record.currentLocation with
                    address :=
                      if truthy location then location.getD ""
                      else record.currentLocation.address } } :: after) ∧
    (updateStatus s now orderId (some status) location).1.timelineAt order.timeline =
      s.timelineAt order.timeline ++
        [{ status := titleCase status
           timestamp := now
           location := if truthy location then location.getD "" else "System Update" }] ∧
    (∀ ref : Nat, ref ≠ order.timeline →
      (updateStatus s now orderId (some status) location).1.timelineAt ref =
        s.timelineAt ref) := by
  obtain ⟨before, after, hsplit, hmod⟩ := modifyFirst_split (fun o => o.orderId == orderId)
    (fun o => { o with status := some status, updatedAt := some now }) s.orders order horder
  obtain ⟨beforeT, afterT, hsplitT, hmodT⟩ := modifyFirst_split (fun t => t.orderId == orderId)
    (fun t =>
      { t with
          status := status
          currentLocation :=
            if truthy location then
              { t.currentLocation with address := location.getD "" }
            else t.currentLocation
          timeline := order.timeline })
    s.tracking record hrecord
  have hstep : updateStatus s now orderId (some status) location =
      ({ orders := modifyFirst (fun o => o.orderId == orderId)
           (fun o => { o with status := some status, updatedAt := some now }) s.orders
         tracking := modifyFirst (fun t => t.orderId == orderId)
           (fun t =>
             { t with
                 status := status
                 currentLocation :=
                   if truthy location then
                     { t.currentLocation with address := location.getD "" }
                   else t.currentLocation
                 timeline := order.timeline })
           s.tracking
         heap := s.heap.set order.timeline
           (s.timelineAt order.timeline ++
             [{ status := titleCase status
                timestamp := now
                location := if truthy location then location.getD "" else "System Update" }]) },
       .ok orderId status location now) := by
    simp only [updateStatus, horder]
  rw [hstep]
  refine ⟨rfl, ⟨before, after, hsplit, hmod⟩, ⟨beforeT, afterT, hsplitT, ?_⟩, ?_, ?_⟩
  · rw [hmodT, ← hshared]
    cases truthy location <;> rfl
  · simp only [Store.timelineAt, getD_set_self, if_pos hvalid]
  · intro ref href
    simp only [Store.timelineAt]
    exact getD_set_of_ne _ _ _ _ _ href

theorem updateStatus_effect_witness :
    (updateStatus oneOrder 5000 "ORD-0" (some "delivered") (some "Front Door")).1.timelineAt 0 =
      oneOrder.timelineAt 0 ++
        [{ status := titleCase "delivered", timestamp := 5000,
           location := if truthy (some "Front Door") then (some "Front Door").getD ""
                       else "System Update" }] :=
  (updateStatus_effect oneOrder 5000 "ORD-0" "delivered" (some "Front Door") _ _ rfl rfl rfl
    (by decide)).2.2.2.1

/-! ## Not found -/

theorem find_isSome_of_exists {α : Type} (p : α → Bool) (l : List α)
    (h : ∃ x ∈ l, p x = true) : ∃ y, l.find? p = some y := by
  have : (l.find? p).isSome = true := by
    rw [List.find?_isSome]
    exact h
  exact Option.isSome_iff_exists.mp this

/-- C17: with an identifier that no stored order (no tracking record) has, the order
route, the status route and the tracking route answer 404 and return the store
as it was; with an identifier that one has, none of them answers 404. -/
theorem notFound_exactly_when_absent (s : Store) (now : Int) (orderId trackingId : String)
    (status location : Option String) :
    ((∀ o ∈ s.orders, o.orderId ≠ orderId) →
      getOrder s orderId = (s, .notFound) ∧
      updateStatus s now orderId status location = (s, .notFound)) ∧
    ((∀ t ∈ s.tracking, t.trackingId ≠ trackingId) →
      track s now trackingId = (s, .notFound)) ∧
    ((∃ o ∈ s.orders, o.orderId = orderId) →
      (getOrder s orderId).2 ≠ .notFound ∧
      (updateStatus s now orderId status location).2 ≠ .notFound) ∧
    ((∃ t ∈ s.tracking, t.trackingId = trackingId) →
      (track s now trackingId).2 ≠ .notFound) := by
  refine ⟨fun h => ?_, fun h => ?_, fun h => ?_, fun h => ?_⟩
  · have hnone : s.orders.find? (fun o => o.orderId == orderId) = none :=
      find_none_of_forall _ _ (fun o ho => by simpa using h o ho)
    simp [getOrder, updateStatus, hnone]
  · have hnone : s.tracking.find? (fun t => t.trackingId == trackingId) = none :=
      find_none_of_forall _ _ (fun t ht => by simpa using h t ht)
    simp [track, hnone]
  · obtain ⟨o, ho, hid⟩ := h
    obtain ⟨found, hfound⟩ := find_isSome_of_exists (fun o : Order => o.orderId == orderId)
      s.orders ⟨o, ho, by simp [hid]⟩
    constructor
    · simp [getOrder, hfound]
    · cases status <;> simp [updateStatus, hfound]
  · obtain ⟨t, ht, hid⟩ := h
    obtain ⟨found, hfound⟩ := find_isSome_of_exists
      (fun t : TrackingRecord => t.trackingId == trackingId) s.tracking ⟨t, ht, by simp [hid]⟩
    rw [track_eq_trackFound s now trackingId found hfound]
    simp [trackFound]

theorem notFound_exactly_when_absent_witness :
    (getOrder oneOrder "ORD-9" = (oneOrder, .notFound) ∧
      updateStatus oneOrder 5000 "ORD-9" (some "delivered") none = (oneOrder, .notFound)) ∧
    track oneOrder 5000 "TRKZZ99" = (oneOrder, .notFound) ∧
    (getOrder oneOrder "ORD-0").2 ≠ .notFound ∧
    (track oneOrder 5000 "TRKAB12").2 ≠ .notFound :=
  ⟨(notFound_exactly_when_absent oneOrder 5000 "ORD-9" "TRKZZ99" (some "delivered") none).1
      (by decide),
    (notFound_exactly_when_absent oneOrder 5000 "ORD-9" "TRKZZ99" (some "delivered") none).2.1
      (by decide),
    ((notFound_exactly_when_absent oneOrder 5000 "ORD-0" "TRKAB12" (some "delivered") none).2.2.1
      (by decide)).1,
    (notFound_exactly_when_absent oneOrder 5000 "ORD-0" "TRKAB12" (some "delivered") none).2.2.2
      (by decide)⟩

theorem jsSlice_of_nonneg {α : Type} (l : List α) (start limit : Int) (hstart : 0 ≤ start)
    (hlimit : 0 < limit) :
    jsSlice l start (start + limit) = (l.drop start.toNat).take limit.toNat := by
  have h1 : ¬ start < 0 := by omega
  have h2 : ¬ start + limit < 0 := by omega
  simp only [jsSlice, h1, h2, if_false]
  by_cases hle : start ≤ (l.length : Int)
  · rw [min_eq_left hle]
    rw [List.take_eq_take, List.length_drop]
    omega
  · have hlen : l.length ≤ start.toNat := by omega
    have hk : (min start (l.length : Int)).toNat = l.length := by
      rw [min_eq_right (by omega)]
      simp
    rw [hk, List.drop_of_length_le (Nat.le_refl _), List.drop_of_length_le hlen]
    simp

theorem ceilDiv_eq_ceil (a b : Int) (hb : 0 < b) : ceilDiv a b = ⌈(a : ℚ) / (b : ℚ)⌉ := by
  unfold ceilDiv
  rw [Int.fdiv_eq_ediv _ (le_of_lt hb)]
  obtain ⟨n, rfl⟩ := Int.eq_ofNat_of_zero_le (le_of_lt hb)
  have h := Rat.floor_intCast_div_natCast (-a) n
  rw [← h]
  have hneg : ((-a : Int) : ℚ) / (n : ℚ) = -((a : ℚ) / ((n : Int) : ℚ)) := by
    push_cast
    ring
  rw [hneg, Int.floor_neg, neg_neg]

theorem start_ge_total (total limit page : Int) (hlimit : 0 < limit)
    (hpage : page > ⌈(total : ℚ) / (limit : ℚ)⌉) : total ≤ (page - 1) * limit := by
  have h1 : ⌈(total : ℚ) / (limit : ℚ)⌉ ≤ page - 1 := by omega
  have h2 : (total : ℚ) / (limit : ℚ) ≤ ((page - 1 : Int) : ℚ) := Int.ceil_le.mp h1
  have hq : (0 : ℚ) < (limit : ℚ) := by exact_mod_cast hlimit
  rw [div_le_iff₀ hq] at h2
  exact_mod_cast h2

theorem filterOrders_eq (s : Store) (status : Option String) :
    filterOrders s status = s.orders.filter (matchesFilter status) := by
  unfold filterOrders matchesFilter
  cases truthy status <;> simp

theorem listOrders_data (s : Store) (status : Option String) (limit page : Int)
    (hlimit : 0 < limit) (hpage : 0 < page) :
    (listOrders s status (some limit) (some page)).data =
      (((s.orders.filter (matchesFilter status)).drop ((page - 1) * limit).toNat).take
        limit.toNat).map summary := by
  have hstart : 0 ≤ (page - 1) * limit := Int.mul_nonneg (by omega) (le_of_lt hlimit)
  simp only [listOrders, Option.getD_some, filterOrders_eq]
  rw [jsSlice_of_nonneg _ _ _ hstart hlimit]

/-- C19: for positive `page` and `limit`, `total` is the number of orders matching
the filter, the slice has at most `limit` items, each the summary of a stored
order matching the filter, and for a page greater than `ceil(total / limit)` the
slice is empty, `total` being that same count. -/
theorem listOrders_page (s : Store) (status : Option String) (limit page : Int)
    (hlimit : 0 < limit) (hpage : 0 < page) :
    (listOrders s status (some limit) (some page)).pagination.total =
      (s.orders.filter (matchesFilter status)).length ∧
    ((listOrders s status (some limit) (some page)).data.length : Int) ≤ limit ∧
    (∀ item ∈ (listOrders s status (some limit) (some page)).data,
      ∃ o ∈ s.orders, matchesFilter status o = true ∧ item = summary o) ∧
    (page > ⌈(((s.orders.filter (matchesFilter status)).length : Int) : ℚ) / (limit : ℚ)⌉ →
      (listOrders s status (some limit) (some page)).data = []) ∧
    (listOrders s status (some limit) (some page)).pagination.totalPages =
      some ⌈(((s.orders.filter (matchesFilter status)).length : Int) : ℚ) / (limit : ℚ)⌉ := by
  have hdata := listOrders_data s status limit page hlimit hpage
  refine ⟨?_, ?_, ?_, ?_, ?_⟩
  · simp only [listOrders, filterOrders_eq]
  · rw [hdata, List.length_map]
    have := List.length_take_le limit.toNat
      ((s.orders.filter (matchesFilter status)).drop ((page - 1) * limit).toNat)
    omega
  · intro item hitem
    rw [hdata, List.mem_map] at hitem
    obtain ⟨o, ho, rfl⟩ := hitem
    have hmem := List.mem_of_mem_drop (List.mem_of_mem_take ho)
    rw [List.mem_filter] at hmem
    exact ⟨o, hmem.1, hmem.2, rfl⟩
  · intro hlarge
    have hge := start_ge_total _ limit page hlimit hlarge
    rw [hdata, List.drop_of_length_le (by omega)]
    simp
  · have hne : limit ≠ 0 := by omega
    simp only [listOrders, Option.getD_some, filterOrders_eq, hne, if_false]
    rw [ceilDiv_eq_ceil _ _ hlimit]

theorem listOrders_page_witness :
    (listOrders fiveOrders none (some 2) (some 3)).pagination.total =
      (fiveOrders.orders.filter (matchesFilter none)).length ∧
    ((listOrders fiveOrders none (some 2) (some 3)).data.length : Int) ≤ 2 :=
  ⟨(listOrders_page fiveOrders none 2 3 (by decide) (by decide)).1,
   (listOrders_page fiveOrders none 2 3 (by decide) (by decide)).2.1⟩

/-! ## The dispatcher -/

theorem modifyFirst_eq_map {α β : Type} [DecidableEq β] (key : α → β) (k : β) (f : α → α)
    (l : List α) (hnodup : (l.map key).Nodup) :
    modifyFirst (fun x => key x == k) f l = l.map (fun x => if key x = k then f x else x) := by
  induction l with
  | nil => rfl
  | cons a l ih =>
    rw [List.map_cons, List.nodup_cons] at hnodup
    by_cases ha : key a = k
    · have hrest : ∀ x ∈ l, key x ≠ k := by
        intro x hx hk
        exact hnodup.1 (List.mem_map.mpr ⟨x, hx, by rw [hk, ha]⟩)
      have hmap : l.map (fun x => if key x = k then f x else x) = l := by
        conv_rhs => rw [← List.map_id l]
        apply List.map_congr_left
        intro x hx
        simp [hrest x hx]
      simp [modifyFirst, ha, hmap]
    · simp [modifyFirst, ha, ih hnodup.2]

theorem delayedItem_orderId (now : Int) (reason : String) (item : OrderItem) :
    (delayedItem now reason item).orderId = item.orderId := rfl

theorem delayedItem_idem (now : Int) (reason : String) (item : OrderItem) :
    delayedItem now reason (delayedItem now reason item) = delayedItem now reason item := rfl

theorem containsLocation_delayedItem (now : Int) (reason : String) (item : OrderItem)
    (location : String) :
    containsLocation (delayedItem now reason item) location = containsLocation item location :=
  rfl

theorem map_orderId_delayed (now : Int) (reason : String) (c : OrderItem → Prop)
    [DecidablePred c] (items : List OrderItem) :
    (items.map (fun i => if c i then delayedItem now reason i else i)).map (fun i => i.orderId) =
      items.map (fun i => i.orderId) := by
  rw [List.map_map]
  apply List.map_congr_left
  intro i _
  simp only [Function.comp]
  split <;> rfl

theorem updateScanned_eq_map (env : Environment) (location reason : String)
    (matched items : List OrderItem) (hnodup : (items.map (fun i => i.orderId)).Nodup) :
    updateScanned env location reason matched items =
      items.map (fun i =>
        if i.orderId ∈ (matched.map (fun m => m.orderId)).takeWhile
            (fun id => !env.updateFails location id)
        then delayedItem env.now reason i else i) := by
  induction matched generalizing items with
  | nil => simp [updateScanned]
  | cons o rest ih =>
    by_cases hfail : env.updateFails location o.orderId = true
    · simp [updateScanned, hfail, List.takeWhile]
    · have hok : env.updateFails location o.orderId = false := by simpa using hfail
      have hmod : updateOrderStatus env.now items o.orderId "delayed" reason =
          items.map (fun i => if i.orderId = o.orderId then delayedItem env.now reason i
            else i) :=
        modifyFirst_eq_map (fun i : OrderItem => i.orderId) o.orderId _ items hnodup
      have hnodup' : ((updateOrderStatus env.now items o.orderId "delayed" reason).map
          (fun i => i.orderId)).Nodup := by
        rw [hmod, map_orderId_delayed]
        exact hnodup
      simp only [updateScanned, hok, Bool.false_eq_true, if_false]
      rw [ih _ hnodup', hmod, List.map_map]
      apply List.map_congr_left
      intro i _
      simp only [Function.comp, List.map_cons, List.takeWhile, hok, Bool.not_false,
        List.mem_cons]
      by_cases hi : i.orderId = o.orderId
      · simp [hi, delayedItem_orderId, delayedItem_idem]
      · simp [hi]

theorem reachedIds_map_delayed (env : Environment) (now : Int) (reason : String)
    (c : OrderItem → Prop) [DecidablePred c] (items : List OrderItem) (location : String) :
    reachedIds env (items.map (fun i => if c i then delayedItem now reason i else i)) location =
      reachedIds env items location := by
  unfold reachedIds
  congr 1
  rw [List.filter_map]
  have hfilter : items.filter
      ((fun i => containsLocation i location) ∘
        (fun i => if c i then delayedItem now reason i else i)) =
      items.filter (fun i => containsLocation i location) := by
    apply List.filter_congr
    intro i _
    simp only [Function.comp]
    split <;> rfl
  rw [hfilter, map_orderId_delayed]

theorem updateAffectedOrders_cons (env : Environment) (items : List OrderItem)
    (location : String) (rest : List String) (reason : String) :
    updateAffectedOrders env items (location :: rest) reason =
      updateAffectedOrders env
        (if env.scanFails location then items
         else updateScanned env location reason
           (items.filter (fun i => containsLocation i location)) items)
        rest reason := rfl

theorem updateAffectedOrders_eq_map (env : Environment) (items : List OrderItem)
    (locations : List String) (reason : String)
    (hnodup : (items.map (fun i => i.orderId)).Nodup) :
    updateAffectedOrders env items locations reason =
      items.map (fun i =>
        if ∃ location ∈ locations,
            env.scanFails location = false ∧ i.orderId ∈ reachedIds env items location
        then delayedItem env.now reason i else i) := by
  induction locations generalizing items with
  | nil => simp [updateAffectedOrders]
  | cons location rest ih =>
    have hstep : (if env.scanFails location then items
        else updateScanned env location reason
          (items.filter (fun i => containsLocation i location)) items) =
        items.map (fun i =>
          if env.scanFails location = false ∧ i.orderId ∈ reachedIds env items location
          then delayedItem env.now reason i else i) := by
      by_cases hscan : env.scanFails location = true
      · simp [hscan]
      · have hok : env.scanFails location = false := by simpa using hscan
        simp only [hok, Bool.false_eq_true, if_false, true_and]
        rw [updateScanned_eq_map env location reason _ items hnodup]
        rfl
    rw [updateAffectedOrders_cons, hstep]
    rw [ih _ (by rw [map_orderId_delayed]; exact hnodup), List.map_map]
    apply List.map_congr_left
    intro i _
    simp only [Function.comp, reachedIds_map_delayed, List.mem_cons, exists_eq_or_imp]
    by_cases h1 : env.scanFails location = false ∧ i.orderId ∈ reachedIds env items location
    · simp only [h1, and_self, if_true, true_or, delayedItem_orderId]
      split <;> rfl
    · simp only [h1, if_false, false_or]

theorem reachedIds_of_no_failure (env : Environment) (items : List OrderItem)
    (location : String) (hupdate : ∀ id, env.updateFails location id = false)
    (hnodup : (items.map (fun i => i.orderId)).Nodup) (i : OrderItem) (hi : i ∈ items) :
    i.orderId ∈ reachedIds env items location ↔ containsLocation i location = true := by
  have hall : reachedIds env items location =
      (items.filter (fun i => containsLocation i location)).map (fun i => i.orderId) := by
    unfold reachedIds
    rw [List.takeWhile_eq_self_iff]
    intro id _
    simp [hupdate id]
  rw [hall, List.mem_map]
  constructor
  · rintro ⟨m, hm, hid⟩
    rw [List.mem_filter] at hm
    have heq : m = i := List.inj_on_of_nodup_map hnodup hm.1 hi hid
    rw [← heq]
    exact hm.2
  · intro hc
    exact ⟨i, List.mem_filter.mpr ⟨hi, hc⟩, rfl⟩

theorem containsLocation_iff (item : OrderItem) (location : String) :
    containsLocation item location = true ↔
      ∃ address, item.delivery_address = some address ∧
        List.IsInfix location.data address.data := by
  unfold containsLocation
  cases item.delivery_address with
  | none => simp
  | some address =>
    simp only [List.any_eq_true, List.mem_tails, List.isPrefixOf_iff_prefix, Option.some.injEq,
      exists_eq_left']
    constructor
    · rintro ⟨t, hsuffix, hprefix⟩
      exact List.infix_iff_prefix_suffix.mpr ⟨t, hprefix, hsuffix⟩
    · intro h
      obtain ⟨t, hprefix, hsuffix⟩ := List.infix_iff_prefix_suffix.mp h
      exact ⟨t, hsuffix, hprefix⟩

/-- C21: for a weather request on a table keyed by `orderId`: when the verdict has no
high impact, no request is sent to the table, the table is as before and the
action list is `monitoring_continued`; when it has and no `scan` or `update` is
rejected, the table afterwards is the table before with exactly the items whose
delivery address contains an affected location set to `delayed` with reason
`weather_delay`, every other item being as before; `contains` is the substring
test. -/
theorem getWeatherImpact_updates (env : Environment) (items : List OrderItem) (event : Event)
    (weatherData : List WeatherReading) (hsignal : env.weatherSignal = .ok weatherData)
    (hnodup : (items.map (fun i => i.orderId)).Nodup) :
    ((analyzeWeatherImpact weatherData event.package_sensitivity).hasHighImpact = false →
      getWeatherImpactRequests env items event = [] ∧
      (getWeatherImpact env items event).2 = items ∧
      ∃ body, (getWeatherImpact env items event).1 = .ok body ∧
        body.autonomous_actions_taken = ["monitoring_continued"]) ∧
    ((analyzeWeatherImpact weatherData event.package_sensitivity).hasHighImpact = true →
      (∀ location, env.scanFails location = false) →
      (∀ location id, env.updateFails location id = false) →
      (getWeatherImpact env items event).2 =
        items.map (fun i =>
          if ∃ location ∈
              (analyzeWeatherImpact weatherData event.package_sensitivity).affectedDeliveries,
              containsLocation i location = true
          then { i with status := some "delayed", updated_at := some env.now,
                        delay_reason := some "weather_delay" }
          else i)) ∧
    (∀ (item : OrderItem) (location : String),
      containsLocation item location = true ↔
        ∃ address, item.delivery_address = some address ∧
          List.IsInfix location.data address.data) := by
  refine ⟨fun hno => ?_, fun hyes hscan hupdate => ?_, containsLocation_iff⟩
  · have hbody : (getWeatherImpact env items event).1 = .ok
        { weather_conditions := weatherData
          impact_analysis := analyzeWeatherImpact weatherData event.package_sensitivity
          recommended_actions :=
            (analyzeWeatherImpact weatherData event.package_sensitivity).recommendations
          autonomous_actions_taken := ["monitoring_continued"] } := by
      simp [getWeatherImpact, hsignal, hno]
    refine ⟨?_, ?_, _, hbody, rfl⟩
    · simp [getWeatherImpactRequests, hsignal, hno]
    · simp [getWeatherImpact, hsignal, hno]
  · simp only [getWeatherImpact, hsignal, hyes, if_true]
    rw [updateAffectedOrders_eq_map env items _ _ hnodup]
    apply List.map_congr_left
    intro i hi
    have hiff : (∃ location ∈
          (analyzeWeatherImpact weatherData event.package_sensitivity).affectedDeliveries,
          env.scanFails location = false ∧ i.orderId ∈ reachedIds env items location) ↔
        (∃ location ∈
          (analyzeWeatherImpact weatherData event.package_sensitivity).affectedDeliveries,
          containsLocation i location = true) := by
      constructor
      · rintro ⟨location, hloc, _, hreach⟩
        exact ⟨location, hloc,
          (reachedIds_of_no_failure env items location (hupdate location) hnodup i hi).mp hreach⟩
      · rintro ⟨location, hloc, hc⟩
        exact ⟨location, hloc, hscan location,
          (reachedIds_of_no_failure env items location (hupdate location) hnodup i hi).mpr hc⟩
    simp only [hiff]
    rfl

theorem getWeatherImpact_updates_witness :
    (getWeatherImpact sampleEnvironment sampleItems weatherEvent).2 =
      sampleItems.map (fun i =>
        if ∃ location ∈
            (analyzeWeatherImpact sampleWeather weatherEvent.package_sensitivity).affectedDeliveries,
            containsLocation i location = true
        then { i with status := some "delayed", updated_at := some sampleEnvironment.now,
                      delay_reason := some "weather_delay" }
        else i) :=
  (getWeatherImpact_updates sampleEnvironment sampleItems weatherEvent sampleWeather rfl
    (by decide)).2.1 (by decide) (fun _ => rfl) (fun _ _ => rfl)

/-- C22, amended: on a table keyed by `orderId`, for every list of affected locations
and every pattern of rejected scans and updates, `updateAffectedOrders` returns
(it does not raise) the table in which the items set to `delayed` are exactly
those that some location with an accepted scan reaches: the items whose address
contains the location, up to the first one whose update is rejected for that
location.  A rejected update ends the updates of its own location only. -/
theorem updateAffectedOrders_reaches (env : Environment) (items : List OrderItem)
    (locations : List String) (reason : String)
    (hnodup : (items.map (fun i => i.orderId)).Nodup) :
    updateAffectedOrders env items locations reason =
      items.map (fun i =>
        if ∃ location ∈ locations,
            env.scanFails location = false ∧
            i.orderId ∈
              ((items.filter (fun i => containsLocation i location)).map
                (fun i => i.orderId)).takeWhile (fun id => !env.updateFails location id)
        then { i with status := some "delayed", updated_at := some env.now,
                      delay_reason := some reason }
        else i) :=
  updateAffectedOrders_eq_map env items locations reason hnodup

theorem updateAffectedOrders_reaches_witness :
    updateAffectedOrders failingEnvironment sampleItems ["Boston", "Dover"] "weather_delay" =
      sampleItems.map (fun i =>
        if ∃ location ∈ ["Boston", "Dover"],
            failingEnvironment.scanFails location = false ∧
            i.orderId ∈
              ((sampleItems.filter (fun i => containsLocation i location)).map
                (fun i => i.orderId)).takeWhile
                  (fun id => !failingEnvironment.updateFails location id)
        then { i with status := some "delayed", updated_at := some failingEnvironment.now,
                      delay_reason := some "weather_delay" }
        else i) :=
  updateAffectedOrders_reaches failingEnvironment sampleItems ["Boston", "Dover"] "weather_delay"
    (by decide)

/-- C22, as stated, fails: with the update of order `o1` rejected, order `o2`, matched
for the same location `Boston` after `o1`, is not updated, while order `o3` of
the other location `Dover` is. -/
theorem updateAffectedOrders_skips_rest_of_location :
    (sampleItems.filter (fun i => containsLocation i "Boston")).map (fun i => i.orderId) =
      ["o1", "o2"] ∧
    (updateAffectedOrders failingEnvironment sampleItems ["Boston", "Dover"]
      "weather_delay").map (fun i => (i.orderId, i.status)) =
      [("o1", some "created"), ("o2", some "created"), ("o3", some "delayed")] := by
  decide

theorem updateAffectedOrdersRequests_no_notify_aux (env : Environment) (reason : String)
    (locations : List String) (state : List OrderItem × List Request)
    (h : ∀ r ∈ state.2, ∀ id t, r ≠ Request.notify id t) :
    ∀ r ∈ (locations.foldl
        (fun (state : List OrderItem × List Request) location =>
          if env.scanFails location then (state.1, state.2 ++ [.scan location])
          else
            (updateScanned env location reason
               (state.1.filter (fun i => containsLocation i location)) state.1,
             state.2 ++ .scan location ::
               updateScannedRequests env location reason
                 (state.1.filter (fun i => containsLocation i location))))
        state).2, ∀ id t, r ≠ Request.notify id t := by
  induction locations generalizing state with
  | nil => exact h
  | cons location rest ih =>
    rw [List.foldl_cons]
    apply ih
    have hscanned : ∀ matched : List OrderItem,
        ∀ r ∈ updateScannedRequests env location reason matched,
          ∀ id t, r ≠ Request.notify id t := by
      intro matched
      induction matched with
      | nil => intro r hr; simp [updateScannedRequests] at hr
      | cons o more ihm =>
        intro r hr id t
        simp only [updateScannedRequests, List.mem_cons] at hr
        rcases hr with hr | hr
        · rw [hr]; exact fun hne => Request.noConfusion hne
        · split at hr
          · simp at hr
          · exact ihm r hr id t
    split
    · intro r hr id t
      simp only [List.mem_append, List.mem_singleton] at hr
      rcases hr with hr | hr
      · exact h r hr id t
      · rw [hr]; exact fun hne => Request.noConfusion hne
    · intro r hr id t
      simp only [List.mem_append, List.mem_cons] at hr
      rcases hr with hr | hr | hr
      · exact h r hr id t
      · rw [hr]; exact fun hne => Request.noConfusion hne
      · exact hscanned _ r hr id t

theorem getWeatherImpactRequests_no_notify (env : Environment) (items : List OrderItem)
    (event : Event) :
    ∀ r ∈ getWeatherImpactRequests env items event, ∀ id t, r ≠ Request.notify id t := by
  unfold getWeatherImpactRequests
  split
  · intro r hr; simp at hr
  · rename_i weatherData _
    by_cases hhigh :
        (analyzeWeatherImpact weatherData event.package_sensitivity).hasHighImpact = true
    · simp only [hhigh, if_true]
      exact updateAffectedOrdersRequests_no_notify_aux env _ _ _ (fun r hr => by simp at hr)
    · intro r hr
      simp [hhigh] at hr

/-- C23: at a weather request whose verdict has high impact for Boston, on a table
with two Boston orders and no rejected call, the processor updates both orders
and reports `customers_notified`, and the requests it has sent are one scan and
two updates: no notification request of any type. -/
theorem getWeatherImpact_emits_no_notification :
    (analyzeWeatherImpact sampleWeather "clothing").hasHighImpact = true ∧
    getWeatherImpactRequests sampleEnvironment sampleItems weatherEvent =
      [.scan "Boston", .update "o1" "delayed" "weather_delay",
       .update "o2" "delayed" "weather_delay"] ∧
    (getWeatherImpact sampleEnvironment sampleItems weatherEvent).2.map
      (fun i => (i.orderId, i.status)) =
      [("o1", some "delayed"), ("o2", some "delayed"), ("o3", some "created")] ∧
    (handler sampleEnvironment sampleItems weatherEvent).1.statusCode = 200 ∧
    (∃ body, (getWeatherImpact sampleEnvironment sampleItems weatherEvent).1 = .ok body ∧
      body.autonomous_actions_taken = ["order_status_updated", "customers_notified"]) ∧
    (∀ r ∈ getWeatherImpactRequests sampleEnvironment sampleItems weatherEvent,
      ∀ id t, r ≠ Request.notify id t) := by
  refine ⟨by decide, by decide, by decide, by decide, ⟨_, rfl, by decide⟩, ?_⟩
  exact getWeatherImpactRequests_no_notify _ _ _

/-! ## The notification handler -/

theorem notifyHandler_of_ok (env : NotifyEnvironment) (log : List LogEntry) (event : NotifyEvent)
    (calls : List NotifyCall) (h : sendNotifications env event = (.ok (), calls)) :
    notifyHandler env log event =
      { statusCode := 200
        body := { message := "Notification sent successfully", orderId := event.orderId,
                  notificationType := event.notificationType }
        calls := calls ++ (logNotification env log (logEntry env.now event "sent" none)).1
        log := (logNotification env log (logEntry env.now event "sent" none)).2 } := by
  simp only [notifyHandler, h]

theorem notifyHandler_of_error (env : NotifyEnvironment) (log : List LogEntry)
    (event : NotifyEvent) (error : String) (calls : List NotifyCall)
    (h : sendNotifications env event = (.error error, calls)) :
    notifyHandler env log event =
      { statusCode := 500
        body := { message := "Failed to send notification", error := some error }
        calls := calls ++
          (if truthy event.orderId && truthy event.customerId then
             logNotification env log (logEntry env.now event "failed" (some error))
           else ([], log)).1
        log :=
          (if truthy event.orderId && truthy event.customerId then
             logNotification env log (logEntry env.now event "failed" (some error))
           else ([], log)).2 } := by
  simp only [notifyHandler, h]

theorem logNotification_calls (env : NotifyEnvironment) (log : List LogEntry) (entry : LogEntry) :
    (logNotification env log entry).1 = [.putLog entry] := by
  unfold logNotification
  split <;> rfl

theorem logNotification_log (env : NotifyEnvironment) (log : List LogEntry) (entry : LogEntry)
    (h : env.logPut = .ok ()) : (logNotification env log entry).2 = log ++ [entry] := by
  simp [logNotification, h]

theorem sendNotifications_both (env : NotifyEnvironment) (event : NotifyEvent)
    (customer : Customer) (data : MessageData)
    (hlookup : env.customerLookup = .ok (some customer))
    (hphone : truthy customer.phoneNumber = true) (hemail : truthy customer.email = true)
    (hdata : event.messageData = some data) :
    (∀ error, env.smsPublish = .error error →
      sendNotifications env event =
        (.error error,
         [.getCustomer event.customerId,
          .publishSms (customer.phoneNumber.getD "")
            (generateNotificationMessage event.notificationType data event.orderId)])) ∧
    (env.smsPublish = .ok () →
      sendNotifications env event =
        (env.emailPublish,
         [.getCustomer event.customerId,
          .publishSms (customer.phoneNumber.getD "")
            (generateNotificationMessage event.notificationType data event.orderId),
          .publishEmail (customer.email.getD "") (getEmailSubject event.notificationType)
            (generateNotificationMessage event.notificationType data event.orderId)])) := by
  constructor
  · intro error hsms
    simp [sendNotifications, hlookup, hdata, hphone, hsms]
  · intro hsms
    simp [sendNotifications, hlookup, hdata, hphone, hemail, hsms]

theorem sendNotifications_email_only (env : NotifyEnvironment) (event : NotifyEvent)
    (customer : Customer) (data : MessageData)
    (hlookup : env.customerLookup = .ok (some customer))
    (hphone : truthy customer.phoneNumber = false) (hemail : truthy customer.email = true)
    (hdata : event.messageData = some data) :
    sendNotifications env event =
      (env.emailPublish,
       [.getCustomer event.customerId,
        .publishEmail (customer.email.getD "") (getEmailSubject event.notificationType)
          (generateNotificationMessage event.notificationType data event.orderId)]) := by
  simp [sendNotifications, hlookup, hdata, hphone, hemail]

theorem sendNotifications_no_channel (env : NotifyEnvironment) (event : NotifyEvent)
    (customer : Customer) (data : MessageData)
    (hlookup : env.customerLookup = .ok (some customer))
    (hphone : truthy customer.phoneNumber = false) (hemail : truthy customer.email = false)
    (hdata : event.messageData = some data) :
    sendNotifications env event = (.ok (), [.getCustomer event.customerId]) := by
  simp [sendNotifications, hlookup, hdata, hphone, hemail]

theorem sendNotifications_not_found (env : NotifyEnvironment) (event : NotifyEvent)
    (hlookup : env.customerLookup = .ok none) :
    sendNotifications env event =
      (.error ("Customer not found: " ++ interpolate event.customerId),
       [.getCustomer event.customerId]) := by
  simp [sendNotifications, hlookup]

theorem notifyHandler_calls_of_outcome (env : NotifyEnvironment) (log : List LogEntry)
    (event : NotifyEvent) (outcome : Except String Unit) (calls : List NotifyCall)
    (h : sendNotifications env event = (outcome, calls)) :
    sendAttempts (notifyHandler env log event).calls = sendAttempts calls := by
  cases outcome with
  | ok u =>
    rw [notifyHandler_of_ok env log event calls h]
    simp [sendAttempts, logNotification_calls]
  | error error =>
    rw [notifyHandler_of_error env log event error calls h]
    by_cases hids : (truthy event.orderId && truthy event.customerId) = true
    · simp [sendAttempts, hids, logNotification_calls]
    · simp [sendAttempts, hids]

/-- C24, amended: for a request with message data to a customer with a phone number
and an email address, the SMS publish is made first; when it is rejected the
handler makes no email attempt and returns status 500, and when it is accepted
the email publish is made as well, whatever its outcome (so an email failure
comes after the SMS attempt). -/
theorem notify_both_channels (env : NotifyEnvironment) (log : List LogEntry)
    (event : NotifyEvent) (customer : Customer) (data : MessageData)
    (hlookup : env.customerLookup = .ok (some customer))
    (hphone : truthy customer.phoneNumber = true) (hemail : truthy customer.email = true)
    (hdata : event.messageData = some data) :
    (∀ error, env.smsPublish = .error error →
      sendAttempts (notifyHandler env log event).calls =
        [.publishSms (customer.phoneNumber.getD "")
          (generateNotificationMessage event.notificationType data event.orderId)] ∧
      (notifyHandler env log event).statusCode = 500) ∧
    (env.smsPublish = .ok () →
      sendAttempts (notifyHandler env log event).calls =
        [.publishSms (customer.phoneNumber.getD "")
           (generateNotificationMessage event.notificationType data event.orderId),
         .publishEmail (customer.email.getD "") (getEmailSubject event.notificationType)
           (generateNotificationMessage event.notificationType data event.orderId)]) := by
  obtain ⟨hfail, hok⟩ := sendNotifications_both env event customer data hlookup hphone hemail
    hdata
  constructor
  · intro error hsms
    constructor
    · rw [notifyHandler_calls_of_outcome env log event _ _ (hfail error hsms)]
      rfl
    · rw [notifyHandler_of_error env log event error _ (hfail error hsms)]
  · intro hsms
    rw [notifyHandler_calls_of_outcome env log event _ _ (hok hsms)]
    rfl

theorem notify_both_channels_witness :
    sendAttempts (notifyHandler (emailDown (some bothChannels)) [] delayedEvent).calls =
      [.publishSms (bothChannels.phoneNumber.getD "")
         (generateNotificationMessage delayedEvent.notificationType
           { reason := some "weather", newEstimatedDelivery := some "tomorrow" }
           delayedEvent.orderId),
       .publishEmail (bothChannels.email.getD "")
         (getEmailSubject delayedEvent.notificationType)
         (generateNotificationMessage delayedEvent.notificationType
           { reason := some "weather", newEstimatedDelivery := some "tomorrow" }
           delayedEvent.orderId)] :=
  (notify_both_channels (emailDown (some bothChannels)) [] delayedEvent bothChannels _ rfl rfl rfl
    rfl).2 rfl

/-- C24, as stated, fails: for a customer with a phone number and an email address,
when the SMS publish is rejected the only send attempt is the SMS one; the
email publish is not attempted, and the result is status 500. -/
theorem notify_sms_failure_skips_email :
    sendAttempts (notifyHandler (smsDown (some bothChannels)) [] delayedEvent).calls =
      [.publishSms "+15550100"
        "Your order ORD-1 delivery has been delayed due to weather. New estimated delivery: tomorrow"] ∧
    (notifyHandler (smsDown (some bothChannels)) [] delayedEvent).statusCode = 500 ∧
    (notifyHandler (smsDown (some bothChannels)) [] delayedEvent).body.error =
      some "SMS rejected" := by
  decide

/-- C25: for a request with message data to a customer with an email address and no
phone number, when the email publish and the log put succeed, the handler makes
exactly one send attempt, the email publish, no SMS attempt, puts exactly one
log entry, with status `sent`, which the table gains, and returns status 200. -/
theorem notify_email_only (env : NotifyEnvironment) (log : List LogEntry)
    (event : NotifyEvent) (customer : Customer) (data : MessageData)
    (hlookup : env.customerLookup = .ok (some customer))
    (hphone : truthy customer.phoneNumber = false) (hemail : truthy customer.email = true)
    (hdata : event.messageData = some data)
    (hsend : env.emailPublish = .ok ()) (hlog : env.logPut = .ok ()) :
    sendAttempts (notifyHandler env log event).calls =
      [.publishEmail (customer.email.getD "") (getEmailSubject event.notificationType)
        (generateNotificationMessage event.notificationType data event.orderId)] ∧
    smsAttempts (notifyHandler env log event).calls = [] ∧
    logWrites (notifyHandler env log event).calls = [logEntry env.now event "sent" none] ∧
    (logEntry env.now event "sent" none).status = "sent" ∧
    (notifyHandler env log event).log = log ++ [logEntry env.now event "sent" none] ∧
    (notifyHandler env log event).statusCode = 200 := by
  have hsent := sendNotifications_email_only env event customer data hlookup hphone hemail hdata
  rw [hsend] at hsent
  rw [notifyHandler_of_ok env log event _ hsent]
  simp [sendAttempts, smsAttempts, logWrites, logNotification_calls,
    logNotification_log env log _ hlog, logEntry]

theorem notify_email_only_witness :
    sendAttempts (notifyHandler (workingNotify (some emailOnly)) [] delayedEvent).calls =
      [.publishEmail (emailOnly.email.getD "") (getEmailSubject delayedEvent.notificationType)
        (generateNotificationMessage delayedEvent.notificationType
          { reason := some "weather", newEstimatedDelivery := some "tomorrow" }
          delayedEvent.orderId)] ∧
    (notifyHandler (workingNotify (some emailOnly)) [] delayedEvent).statusCode = 200 :=
  ⟨(notify_email_only (workingNotify (some emailOnly)) [] delayedEvent emailOnly _ rfl rfl rfl
      rfl rfl rfl).1,
   (notify_email_only (workingNotify (some emailOnly)) [] delayedEvent emailOnly _ rfl rfl rfl
      rfl rfl rfl).2.2.2.2.2⟩

/-- C26: for a request that carries an order id and a customer id and whose customer
lookup returns no record, the handler makes no send attempt, returns status 500
with the error `Customer not found: ` followed by the customer id, and puts
exactly one log entry, with status `failed` and that error (one put, no
retry), which the table gains when it accepts the put. -/
theorem notify_customer_not_found (env : NotifyEnvironment) (log : List LogEntry)
    (event : NotifyEvent) (orderId customerId : String)
    (hlookup : env.customerLookup = .ok none)
    (horder : event.orderId = some orderId) (horderId : orderId ≠ "")
    (hcustomer : event.customerId = some customerId) (hcustomerId : customerId ≠ "") :
    sendAttempts (notifyHandler env log event).calls = [] ∧
    (notifyHandler env log event).statusCode = 500 ∧
    (notifyHandler env log event).body.error = some ("Customer not found: " ++ customerId) ∧
    logWrites (notifyHandler env log event).calls =
      [logEntry env.now event "failed" (some ("Customer not found: " ++ customerId))] ∧
    (logEntry env.now event "failed" (some ("Customer not found: " ++ customerId))).status =
      "failed" ∧
    (env.logPut = .ok () →
      (notifyHandler env log event).log =
        log ++ [logEntry env.now event "failed" (some ("Customer not found: " ++ customerId))])
    := by
  have hsent := sendNotifications_not_found env event hlookup
  have hids : (truthy event.orderId && truthy event.customerId) = true := by
    simp [truthy, horder, hcustomer, horderId, hcustomerId]
  have hmsg : interpolate event.customerId = customerId := by simp [interpolate, hcustomer]
  rw [hmsg] at hsent
  rw [notifyHandler_of_error env log event _ _ hsent]
  refine ⟨?_, rfl, rfl, ?_, rfl, ?_⟩
  · simp [hids, sendAttempts, logNotification_calls]
  · simp [hids, logWrites, logNotification_calls]
  · intro hlog
    simp [hids, logNotification_log env log _ hlog]

theorem notify_customer_not_found_witness :
    sendAttempts (notifyHandler (workingNotify none) [] delayedEvent).calls = [] ∧
    (notifyHandler (workingNotify none) [] delayedEvent).statusCode = 500 ∧
    (notifyHandler (workingNotify none) [] delayedEvent).body.error =
      some ("Customer not found: " ++ "c1") :=
  ⟨(notify_customer_not_found (workingNotify none) [] delayedEvent "ORD-1" "c1" rfl rfl
      (by decide) rfl (by decide)).1,
   (notify_customer_not_found (workingNotify none) [] delayedEvent "ORD-1" "c1" rfl rfl
      (by decide) rfl (by decide)).2.1,
   (notify_customer_not_found (workingNotify none) [] delayedEvent "ORD-1" "c1" rfl rfl
      (by decide) rfl (by decide)).2.2.1⟩

/-- C30: for a request with message data to an existing customer with neither a phone
number nor an email address, the handler makes no send attempt, returns status
200 with the message `Notification sent successfully`, and puts exactly one log
entry, with status `sent`, which the table gains when it accepts the put. -/
theorem notify_no_channel (env : NotifyEnvironment) (log : List LogEntry)
    (event : NotifyEvent) (customer : Customer) (data : MessageData)
    (hlookup : env.customerLookup = .ok (some customer))
    (hphone : truthy customer.phoneNumber = false) (hemail : truthy customer.email = false)
    (hdata : event.messageData = some data) :
    sendAttempts (notifyHandler env log event).calls = [] ∧
    (notifyHandler env log event).statusCode = 200 ∧
    (notifyHandler env log event).body.message = "Notification sent successfully" ∧
    logWrites (notifyHandler env log event).calls = [logEntry env.now event "sent" none] ∧
    (logEntry env.now event "sent" none).status = "sent" ∧
    (env.logPut = .ok () →
      (notifyHandler env log event).log = log ++ [logEntry env.now event "sent" none]) := by
  have hsent := sendNotifications_no_channel env event customer data hlookup hphone hemail hdata
  rw [notifyHandler_of_ok env log event _ hsent]
  refine ⟨?_, rfl, rfl, ?_, rfl, ?_⟩
  · simp [sendAttempts, logNotification_calls]
  · simp [logWrites, logNotification_calls]
  · intro hlog
    exact logNotification_log env log _ hlog

theorem notify_no_channel_witness :
    sendAttempts (notifyHandler (workingNotify (some noChannel)) [] delayedEvent).calls = [] ∧
    (notifyHandler (workingNotify (some noChannel)) [] delayedEvent).statusCode = 200 ∧
    (notifyHandler (workingNotify (some noChannel)) [] delayedEvent).body.message =
      "Notification sent successfully" :=
  ⟨(notify_no_channel (workingNotify (some noChannel)) [] delayedEvent noChannel _ rfl rfl rfl
      rfl).1,
   (notify_no_channel (workingNotify (some noChannel)) [] delayedEvent noChannel _ rfl rfl rfl
      rfl).2.1,
   (notify_no_channel (workingNotify (some noChannel)) [] delayedEvent noChannel _ rfl rfl rfl
      rfl).2.2.1⟩

/-! ## The batch after the traffic analysis -/

theorem analyzeTrafficImpact_batch (trafficData : List TrafficReading)
    (departureTime vehicleType : String) :
    (analyzeTrafficImpact trafficData departureTime vehicleType).2 =
      if totalDelay trafficData > 30 then jsSort congestionCompare trafficData
      else trafficData := by
  simp only [analyzeTrafficImpact, foldl_delay_eq, generateOptimizedRoute, zero_add]
  split <;> rfl

/-- C27: at a batch with delays 10, 25 and 40 and levels `high`, `low`, `medium`, the
batch after `analyzeTrafficImpact` is reordered (`Harbor`, `Market`, `Depot`), while
the verdict's `delays` are in the order the batch had before the call (`Depot`,
`Harbor`, `Market`): the two no longer correspond position by position. -/
theorem analyzeTrafficImpact_reorders_batch :
    sampleTraffic.map (fun t => t.waypoint) = ["Depot", "Harbor", "Market"] ∧
    (analyzeTrafficImpact sampleTraffic "09:00" "van").2.map (fun t => t.waypoint) =
      ["Harbor", "Market", "Depot"] ∧
    (analyzeTrafficImpact sampleTraffic "09:00" "van").1.delays.map (fun d => d.location) =
      ["Depot", "Harbor", "Market"] ∧
    (analyzeTrafficImpact sampleTraffic "09:00" "van").2 ≠ sampleTraffic := by
  decide

/-! ## Pages -/

theorem flatMap_chunks {α β : Type} (f : α → β) (l : List α) (n m : Nat) :
    (List.range m).flatMap (fun k => ((l.drop (k * n)).take n).map f) =
      (l.take (m * n)).map f := by
  induction m with
  | zero => simp
  | succ m ih =>
    rw [List.range_succ, List.flatMap_append, ih, Nat.succ_mul, List.take_add, List.map_append]
    simp

theorem ceilDiv_covers (total : Nat) (limit : Int) (hlimit : 0 < limit) :
    0 ≤ ceilDiv total limit ∧ (total : Int) ≤ ceilDiv total limit * limit := by
  rw [ceilDiv_eq_ceil _ _ hlimit]
  have hq : (0 : ℚ) < (limit : ℚ) := by exact_mod_cast hlimit
  constructor
  · apply Int.ceil_nonneg
    apply div_nonneg
    · exact_mod_cast Int.natCast_nonneg total
    · exact le_of_lt hq
  · have h := Int.le_ceil (((total : Int) : ℚ) / (limit : ℚ))
    rw [div_le_iff₀ hq] at h
    exact_mod_cast h

/-- C28: for a positive `limit`, the pages 1 to `totalPages` of the list route,
concatenated in order, are the summaries of the orders matching the filter, in
store order, where `totalPages`, the value the route reports, is
`ceil(total / limit)`. -/
theorem listOrders_pages_concat (s : Store) (status : Option String) (limit : Int)
    (hlimit : 0 < limit) :
    ∃ totalPages : Nat,
      (listOrders s status (some limit) (some 1)).pagination.totalPages =
        some (totalPages : Int) ∧
      (totalPages : Int) =
        ⌈(((s.orders.filter (matchesFilter status)).length : Int) : ℚ) / (limit : ℚ)⌉ ∧
      (List.range totalPages).flatMap
          (fun k => (listOrders s status (some limit) (some ((k : Int) + 1))).data) =
        (s.orders.filter (matchesFilter status)).map summary := by
  obtain ⟨hnonneg, hcover⟩ :=
    ceilDiv_covers (s.orders.filter (matchesFilter status)).length limit hlimit
  refine ⟨(ceilDiv (s.orders.filter (matchesFilter status)).length limit).toNat, ?_, ?_, ?_⟩
  · have hne : limit ≠ 0 := by omega
    simp only [listOrders, Option.getD_some, filterOrders_eq, hne, if_false]
    rw [Int.toNat_of_nonneg hnonneg]
  · rw [Int.toNat_of_nonneg hnonneg, ceilDiv_eq_ceil _ _ hlimit]
  · obtain ⟨n, rfl⟩ := Int.eq_ofNat_of_zero_le (le_of_lt hlimit)
    have hpages : ∀ k : Nat,
        (listOrders s status (some (n : Int)) (some ((k : Int) + 1))).data =
          (((s.orders.filter (matchesFilter status)).drop (k * n)).take n).map summary := by
      intro k
      rw [listOrders_data s status n ((k : Int) + 1) hlimit (by omega)]
      have h1 : (((k : Int) + 1 - 1) * (n : Int)).toNat = k * n := by
        rw [add_sub_cancel_right]
        exact_mod_cast Int.toNat_natCast (k * n)
      rw [h1, Int.toNat_natCast]
    simp only [hpages]
    rw [flatMap_chunks, List.take_of_length_le]
    have hc : ((s.orders.filter (matchesFilter status)).length : Int) ≤
        ((ceilDiv (s.orders.filter (matchesFilter status)).length (n : Int)).toNat : Int)
          * (n : Int) := by
      rw [Int.toNat_of_nonneg hnonneg]
      exact hcover
    exact_mod_cast hc

theorem listOrders_pages_concat_witness :
    ∃ totalPages : Nat,
      (listOrders fiveOrders none (some 2) (some 1)).pagination.totalPages =
        some (totalPages : Int) ∧
      (totalPages : Int) =
        ⌈(((fiveOrders.orders.filter (matchesFilter none)).length : Int) : ℚ) / ((2 : Int) : ℚ)⌉ ∧
      (List.range totalPages).flatMap
          (fun k => (listOrders fiveOrders none (some 2) (some ((k : Int) + 1))).data) =
        (fiveOrders.orders.filter (matchesFilter none)).map summary :=
  listOrders_pages_concat fiveOrders none 2 (by decide)

/-! ## What tracking leaves alone -/

theorem track_orders (s : Store) (now : Int) (trackingId : String) :
    (track s now trackingId).1.orders = s.orders := by
  cases hrecord : s.tracking.find? (fun t => t.trackingId == trackingId) with
  | none => simp [track, hrecord]
  | some record =>
    rw [track_eq_trackFound s now trackingId record hrecord]
    rfl

/-- C29: the tracking route leaves the array of orders as it was, so that no order's
`status`, `updatedAt` or `estimatedDelivery` changes, and the list route (for
every filter, limit and page) and the analytics counts answer after the call as
before it. -/
theorem track_keeps_orders (s : Store) (now : Int) (trackingId : String) :
    (track s now trackingId).1.orders = s.orders ∧
    (track s now trackingId).1.orders.map
        (fun o => (o.status, o.updatedAt, o.estimatedDelivery)) =
      s.orders.map (fun o => (o.status, o.updatedAt, o.estimatedDelivery)) ∧
    (∀ (status : Option String) (limit page : Option Int),
      listOrders (track s now trackingId).1 status limit page =
        listOrders s status limit page) ∧
    analytics (track s now trackingId).1 = analytics s := by
  have h := track_orders s now trackingId
  refine ⟨h, by rw [h], fun status limit page => ?_, ?_⟩
  · simp only [listOrders, filterOrders, h]
  · simp only [analytics, h]

end SmartLogistics
